import Mathlib

/-!
Verification of the AI request-routing, budget-admission and response-caching
subsystem of the SoznAi backend.  The Python sources under
`backend/app/ai/{router,costs,cache,templates,local_llm}.py` are shallowly
embedded below: pure helpers become Lean functions, the stateful router
pipeline becomes an explicit state-passing function returning the response,
the usage records written, the final limiter state, the final cache store and
a trace of generator/provider invocations.
-/

set_option maxRecDepth 16000
set_option maxHeartbeats 2000000
set_option linter.unusedVariables false
set_option linter.unreachableTactic false
set_option linter.unusedTactic false

namespace SoznAi

/-! ### SHA-256 (hashlib.sha256, FIPS 180-4), used by `PromptCache._cache_key` -/

/-- Truncate to a 32-bit word. -/
def w32 (x : Nat) : Nat := x % 4294967296

/-- 32-bit right rotation. -/
def rotr32 (n x : Nat) : Nat := w32 ((x >>> n) ||| (x <<< (32 - n)))

def bsig0 (x : Nat) : Nat := rotr32 2 x ^^^ rotr32 13 x ^^^ rotr32 22 x

def bsig1 (x : Nat) : Nat := rotr32 6 x ^^^ rotr32 11 x ^^^ rotr32 25 x

def ssig0 (x : Nat) : Nat := rotr32 7 x ^^^ rotr32 18 x ^^^ (x >>> 3)

def ssig1 (x : Nat) : Nat := rotr32 17 x ^^^ rotr32 19 x ^^^ (x >>> 10)

/-- The 64 SHA-256 round constants, in decimal. -/
def sha256K : List Nat :=
  [1116352408, 1899447441, 3049323471, 3921009573, 961987163,
   1508970993, 2453635748, 2870763221, 3624381080, 310598401,
   607225278, 1426881987, 1925078388, 2162078206, 2614888103,
   3248222580, 3835390401, 4022224774, 264347078, 604807628,
   770255983, 1249150122, 1555081692, 1996064986, 2554220882,
   2821834349, 2952996808, 3210313671, 3336571891, 3584528711,
   113926993, 338241895, 666307205, 773529912, 1294757372,
   1396182291, 1695183700, 1986661051, 2177026350, 2456956037,
   2730485921, 2820302411, 3259730800, 3345764771, 3516065817,
   3600352804, 4094571909, 275423344, 430227734, 506948616,
   659060556, 883997877, 958139571, 1322822218, 1537002063,
   1747873779, 1955562222, 2024104815, 2227730452, 2361852424,
   2428436474, 2756734187, 3204031479, 3329325298]

/-- The SHA-256 initial hash value, in decimal. -/
def sha256H0 : List Nat :=
  [1779033703, 3144134277, 1013904242, 2773480762, 1359893119,
   2600822924, 528734635, 1541459225]

/-- Extend the message schedule; `acc` holds the words produced so far,
newest first. -/
def sha256Extend : Nat → List Nat → List Nat
  | 0, acc => acc
  | n + 1, acc =>
      let g := fun i => (acc.get? i).getD 0
      let next := w32 (ssig1 (g 1) + g 6 + ssig0 (g 14) + g 15)
      sha256Extend n (next :: acc)

/-- One compression round on the eight-word working state. -/
def sha256Round (st : List Nat) (k w : Nat) : List Nat :=
  match st with
  | [a, b, c, d, e, f, g, h] =>
      let ch := (e &&& f) ^^^ ((e ^^^ 0xffffffff) &&& g)
      let maj := (a &&& b) ^^^ (a &&& c) ^^^ (b &&& c)
      let t1 := w32 (h + bsig1 e + ch + k + w)
      let t2 := w32 (bsig0 a + maj)
      [w32 (t1 + t2), a, b, c, w32 (d + t1), e, f, g]
  | other => other

/-- Big-endian 4-byte groups to 32-bit words. -/
def bytesToWords : List Nat → List Nat
  | b0 :: b1 :: b2 :: b3 :: rest =>
      ((b0 <<< 24) ||| (b1 <<< 16) ||| (b2 <<< 8) ||| b3) :: bytesToWords rest
  | _ => []

/-- SHA-256 padding: append 0x80, zero bytes, and the 64-bit big-endian
bit length, to a multiple of 64 bytes. -/
def sha256Pad (msg : List Nat) : List Nat :=
  let len := msg.length
  let zeros := (64 + 56 - (len + 1) % 64) % 64
  msg ++ [0x80] ++ List.replicate zeros 0 ++
    (List.range 8).map (fun i => (len * 8 >>> ((7 - i) * 8)) &&& 0xff)

/-- Split a byte list into 64-byte chunks (fuel-indexed so the kernel can
reduce it; `chunks64` supplies enough fuel). -/
def chunks64Aux : Nat → List Nat → List (List Nat)
  | 0, _ => []
  | _ + 1, [] => []
  | fuel + 1, l => l.take 64 :: chunks64Aux fuel (l.drop 64)

/-- Split a byte list into 64-byte chunks. -/
def chunks64 (l : List Nat) : List (List Nat) := chunks64Aux l.length l

/-- Compress one 64-byte chunk into the running hash state. -/
def sha256ProcessChunk (hs : List Nat) (chunk : List Nat) : List Nat :=
  let w := (sha256Extend 48 (bytesToWords chunk).reverse).reverse
  let st := (sha256K.zip w).foldl (fun s p => sha256Round s p.1 p.2) hs
  (hs.zip st).map (fun p => w32 (p.1 + p.2))

/-- SHA-256 of a byte sequence, as eight 32-bit words. -/
def sha256Words (msg : List Nat) : List Nat :=
  (chunks64 (sha256Pad msg)).foldl sha256ProcessChunk sha256H0

/-- UTF-8 encoding of one character (`str.encode("utf-8")`). -/
def utf8EncodeChar (c : Char) : List Nat :=
  let n := c.toNat
  if n < 0x80 then [n]
  else if n < 0x800 then
    [0xc0 ||| (n >>> 6), 0x80 ||| (n &&& 0x3f)]
  else if n < 0x10000 then
    [0xe0 ||| (n >>> 12), 0x80 ||| ((n >>> 6) &&& 0x3f), 0x80 ||| (n &&& 0x3f)]
  else
    [0xf0 ||| (n >>> 18), 0x80 ||| ((n >>> 12) &&& 0x3f),
     0x80 ||| ((n >>> 6) &&& 0x3f), 0x80 ||| (n &&& 0x3f)]

/-- UTF-8 encoding of a string. -/
def utf8Bytes (s : String) : List Nat := s.data.flatMap utf8EncodeChar

def hexDigit (n : Nat) : Char :=
  if n < 10 then Char.ofNat (48 + n) else Char.ofNat (87 + n)

/-- Lower-case hex rendering of one 32-bit word. -/
def word32Hex (x : Nat) : String :=
  String.mk ((List.range 8).map (fun i => hexDigit ((x >>> ((7 - i) * 4)) &&& 15)))

/-- `hashlib.sha256(payload.encode("utf-8")).hexdigest()`. -/
def sha256hex (s : String) : String :=
  String.join ((sha256Words (utf8Bytes s)).map word32Hex)

/-! ### `backend/app/ai/cache.py` — `PromptCache` and its storage backend

The prompt normalization calls Python's `str.strip`, `str.lower`,
`str.split()` and `" ".join`; these library functions are embedded
explicitly with their documented semantics. -/

/-- The 29 codepoints Python treats as whitespace for `str.split()` /
`str.strip()` (`Py_UNICODE_ISSPACE`), generated from CPython. -/
def pyWsCodes : List Nat :=
  [9, 10, 11, 12, 13, 28, 29, 30, 31, 32, 133, 160, 5760, 8192,
   8193, 8194, 8195, 8196, 8197, 8198, 8199, 8200, 8201, 8202, 8232, 8233, 8239, 8287,
   12288]

/-- Python whitespace, as used by `str.split()` / `str.strip()`. -/
def pyIsWs (c : Char) : Bool := pyWsCodes.contains c.toNat

/-- The full per-codepoint mapping of `str.lower()`: every codepoint whose
lowercase differs from itself, with its (possibly multi-character) lowercase
expansion.  Generated from CPython (Unicode Character Database full case
mappings); the one context-dependent mapping, capital sigma, is handled
separately in `pyLowerGo`. -/
def pyLowerMap : List (Nat × List Nat) :=
  [(65, [97]), (66, [98]), (67, [99]), (68, [100]),
   (69, [101]), (70, [102]), (71, [103]), (72, [104]),
   (73, [105]), (74, [106]), (75, [107]), (76, [108]),
   (77, [109]), (78, [110]), (79, [111]), (80, [112]),
   (81, [113]), (82, [114]), (83, [115]), (84, [116]),
   (85, [117]), (86, [118]), (87, [119]), (88, [120]),
   (89, [121]), (90, [122]), (192, [224]), (193, [225]),
   (194, [226]), (195, [227]), (196, [228]), (197, [229]),
   (198, [230]), (199, [231]), (200, [232]), (201, [233]),
   (202, [234]), (203, [235]), (204, [236]), (205, [237]),
   (206, [238]), (207, [239]), (208, [240]), (209, [241]),
   (210, [242]), (211, [243]), (212, [244]), (213, [245]),
   (214, [246]), (216, [248]), (217, [249]), (218, [250]),
   (219, [251]), (220, [252]), (221, [253]), (222, [254]),
   (256, [257]), (258, [259]), (260, [261]), (262, [263]),
   (264, [265]), (266, [267]), (268, [269]), (270, [271]),
   (272, [273]), (274, [275]), (276, [277]), (278, [279]),
   (280, [281]), (282, [283]), (284, [285]), (286, [287]),
   (288, [289]), (290, [291]), (292, [293]), (294, [295]),
   (296, [297]), (298, [299]), (300, [301]), (302, [303]),
   (304, [105, 775]), (306, [307]), (308, [309]), (310, [311]),
   (313, [314]), (315, [316]), (317, [318]), (319, [320]),
   (321, [322]), (323, [324]), (325, [326]), (327, [328]),
   (330, [331]), (332, [333]), (334, [335]), (336, [337]),
   (338, [339]), (340, [341]), (342, [343]), (344, [345]),
   (346, [347]), (348, [349]), (350, [351]), (352, [353]),
   (354, [355]), (356, [357]), (358, [359]), (360, [361]),
   (362, [363]), (364, [365]), (366, [367]), (368, [369]),
   (370, [371]), (372, [373]), (374, [375]), (376, [255]),
   (377, [378]), (379, [380]), (381, [382]), (385, [595]),
   (386, [387]), (388, [389]), (390, [596]), (391, [392]),
   (393, [598]), (394, [599]), (395, [396]), (398, [477]),
   (399, [601]), (400, [603]), (401, [402]), (403, [608]),
   (404, [611]), (406, [617]), (407, [616]), (408, [409]),
   (412, [623]), (413, [626]), (415, [629]), (416, [417]),
   (418, [419]), (420, [421]), (422, [640]), (423, [424]),
   (425, [643]), (428, [429]), (430, [648]), (431, [432]),
   (433, [650]), (434, [651]), (435, [436]), (437, [438]),
   (439, [658]), (440, [441]), (444, [445]), (452, [454]),
   (453, [454]), (455, [457]), (456, [457]), (458, [460]),
   (459, [460]), (461, [462]), (463, [464]), (465, [466]),
   (467, [468]), (469, [470]), (471, [472]), (473, [474]),
   (475, [476]), (478, [479]), (480, [481]), (482, [483]),
   (484, [485]), (486, [487]), (488, [489]), (490, [491]),
   (492, [493]), (494, [495]), (497, [499]), (498, [499]),
   (500, [501]), (502, [405]), (503, [447]), (504, [505]),
   (506, [507]), (508, [509]), (510, [511]), (512, [513]),
   (514, [515]), (516, [517]), (518, [519]), (520, [521]),
   (522, [523]), (524, [525]), (526, [527]), (528, [529]),
   (530, [531]), (532, [533]), (534, [535]), (536, [537]),
   (538, [539]), (540, [541]), (542, [543]), (544, [414]),
   (546, [547]), (548, [549]), (550, [551]), (552, [553]),
   (554, [555]), (556, [557]), (558, [559]), (560, [561]),
   (562, [563]), (570, [11365]), (571, [572]), (573, [410]),
   (574, [11366]), (577, [578]), (579, [384]), (580, [649]),
   (581, [652]), (582, [583]), (584, [585]), (586, [587]),
   (588, [589]), (590, [591]), (880, [881]), (882, [883]),
   (886, [887]), (895, [1011]), (902, [940]), (904, [941]),
   (905, [942]), (906, [943]), (908, [972]), (910, [973]),
   (911, [974]), (913, [945]), (914, [946]), (915, [947]),
   (916, [948]), (917, [949]), (918, [950]), (919, [951]),
   (920, [952]), (921, [953]), (922, [954]), (923, [955]),
   (924, [956]), (925, [957]), (926, [958]), (927, [959]),
   (928, [960]), (929, [961]), (931, [963]), (932, [964]),
   (933, [965]), (934, [966]), (935, [967]), (936, [968]),
   (937, [969]), (938, [970]), (939, [971]), (975, [983]),
   (984, [985]), (986, [987]), (988, [989]), (990, [991]),
   (992, [993]), (994, [995]), (996, [997]), (998, [999]),
   (1000, [1001]), (1002, [1003]), (1004, [1005]), (1006, [1007]),
   (1012, [952]), (1015, [1016]), (1017, [1010]), (1018, [1019]),
   (1021, [891]), (1022, [892]), (1023, [893]), (1024, [1104]),
   (1025, [1105]), (1026, [1106]), (1027, [1107]), (1028, [1108]),
   (1029, [1109]), (1030, [1110]), (1031, [1111]), (1032, [1112]),
   (1033, [1113]), (1034, [1114]), (1035, [1115]), (1036, [1116]),
   (1037, [1117]), (1038, [1118]), (1039, [1119]), (1040, [1072]),
   (1041, [1073]), (1042, [1074]), (1043, [1075]), (1044, [1076]),
   (1045, [1077]), (1046, [1078]), (1047, [1079]), (1048, [1080]),
   (1049, [1081]), (1050, [1082]), (1051, [1083]), (1052, [1084]),
   (1053, [1085]), (1054, [1086]), (1055, [1087]), (1056, [1088]),
   (1057, [1089]), (1058, [1090]), (1059, [1091]), (1060, [1092]),
   (1061, [1093]), (1062, [1094]), (1063, [1095]), (1064, [1096]),
   (1065, [1097]), (1066, [1098]), (1067, [1099]), (1068, [1100]),
   (1069, [1101]), (1070, [1102]), (1071, [1103]), (1120, [1121]),
   (1122, [1123]), (1124, [1125]), (1126, [1127]), (1128, [1129]),
   (1130, [1131]), (1132, [1133]), (1134, [1135]), (1136, [1137]),
   (1138, [1139]), (1140, [1141]), (1142, [1143]), (1144, [1145]),
   (1146, [1147]), (1148, [1149]), (1150, [1151]), (1152, [1153]),
   (1162, [1163]), (1164, [1165]), (1166, [1167]), (1168, [1169]),
   (1170, [1171]), (1172, [1173]), (1174, [1175]), (1176, [1177]),
   (1178, [1179]), (1180, [1181]), (1182, [1183]), (1184, [1185]),
   (1186, [1187]), (1188, [1189]), (1190, [1191]), (1192, [1193]),
   (1194, [1195]), (1196, [1197]), (1198, [1199]), (1200, [1201]),
   (1202, [1203]), (1204, [1205]), (1206, [1207]), (1208, [1209]),
   (1210, [1211]), (1212, [1213]), (1214, [1215]), (1216, [1231]),
   (1217, [1218]), (1219, [1220]), (1221, [1222]), (1223, [1224]),
   (1225, [1226]), (1227, [1228]), (1229, [1230]), (1232, [1233]),
   (1234, [1235]), (1236, [1237]), (1238, [1239]), (1240, [1241]),
   (1242, [1243]), (1244, [1245]), (1246, [1247]), (1248, [1249]),
   (1250, [1251]), (1252, [1253]), (1254, [1255]), (1256, [1257]),
   (1258, [1259]), (1260, [1261]), (1262, [1263]), (1264, [1265]),
   (1266, [1267]), (1268, [1269]), (1270, [1271]), (1272, [1273]),
   (1274, [1275]), (1276, [1277]), (1278, [1279]), (1280, [1281]),
   (1282, [1283]), (1284, [1285]), (1286, [1287]), (1288, [1289]),
   (1290, [1291]), (1292, [1293]), (1294, [1295]), (1296, [1297]),
   (1298, [1299]), (1300, [1301]), (1302, [1303]), (1304, [1305]),
   (1306, [1307]), (1308, [1309]), (1310, [1311]), (1312, [1313]),
   (1314, [1315]), (1316, [1317]), (1318, [1319]), (1320, [1321]),
   (1322, [1323]), (1324, [1325]), (1326, [1327]), (1329, [1377]),
   (1330, [1378]), (1331, [1379]), (1332, [1380]), (1333, [1381]),
   (1334, [1382]), (1335, [1383]), (1336, [1384]), (1337, [1385]),
   (1338, [1386]), (1339, [1387]), (1340, [1388]), (1341, [1389]),
   (1342, [1390]), (1343, [1391]), (1344, [1392]), (1345, [1393]),
   (1346, [1394]), (1347, [1395]), (1348, [1396]), (1349, [1397]),
   (1350, [1398]), (1351, [1399]), (1352, [1400]), (1353, [1401]),
   (1354, [1402]), (1355, [1403]), (1356, [1404]), (1357, [1405]),
   (1358, [1406]), (1359, [1407]), (1360, [1408]), (1361, [1409]),
   (1362, [1410]), (1363, [1411]), (1364, [1412]), (1365, [1413]),
   (1366, [1414]), (4256, [11520]), (4257, [11521]), (4258, [11522]),
   (4259, [11523]), (4260, [11524]), (4261, [11525]), (4262, [11526]),
   (4263, [11527]), (4264, [11528]), (4265, [11529]), (4266, [11530]),
   (4267, [11531]), (4268, [11532]), (4269, [11533]), (4270, [11534]),
   (4271, [11535]), (4272, [11536]), (4273, [11537]), (4274, [11538]),
   (4275, [11539]), (4276, [11540]), (4277, [11541]), (4278, [11542]),
   (4279, [11543]), (4280, [11544]), (4281, [11545]), (4282, [11546]),
   (4283, [11547]), (4284, [11548]), (4285, [11549]), (4286, [11550]),
   (4287, [11551]), (4288, [11552]), (4289, [11553]), (4290, [11554]),
   (4291, [11555]), (4292, [11556]), (4293, [11557]), (4295, [11559]),
   (4301, [11565]), (5024, [43888]), (5025, [43889]), (5026, [43890]),
   (5027, [43891]), (5028, [43892]), (5029, [43893]), (5030, [43894]),
   (5031, [43895]), (5032, [43896]), (5033, [43897]), (5034, [43898]),
   (5035, [43899]), (5036, [43900]), (5037, [43901]), (5038, [43902]),
   (5039, [43903]), (5040, [43904]), (5041, [43905]), (5042, [43906]),
   (5043, [43907]), (5044, [43908]), (5045, [43909]), (5046, [43910]),
   (5047, [43911]), (5048, [43912]), (5049, [43913]), (5050, [43914]),
   (5051, [43915]), (5052, [43916]), (5053, [43917]), (5054, [43918]),
   (5055, [43919]), (5056, [43920]), (5057, [43921]), (5058, [43922]),
   (5059, [43923]), (5060, [43924]), (5061, [43925]), (5062, [43926]),
   (5063, [43927]), (5064, [43928]), (5065, [43929]), (5066, [43930]),
   (5067, [43931]), (5068, [43932]), (5069, [43933]), (5070, [43934]),
   (5071, [43935]), (5072, [43936]), (5073, [43937]), (5074, [43938]),
   (5075, [43939]), (5076, [43940]), (5077, [43941]), (5078, [43942]),
   (5079, [43943]), (5080, [43944]), (5081, [43945]), (5082, [43946]),
   (5083, [43947]), (5084, [43948]), (5085, [43949]), (5086, [43950]),
   (5087, [43951]), (5088, [43952]), (5089, [43953]), (5090, [43954]),
   (5091, [43955]), (5092, [43956]), (5093, [43957]), (5094, [43958]),
   (5095, [43959]), (5096, [43960]), (5097, [43961]), (5098, [43962]),
   (5099, [43963]), (5100, [43964]), (5101, [43965]), (5102, [43966]),
   (5103, [43967]), (5104, [5112]), (5105, [5113]), (5106, [5114]),
   (5107, [5115]), (5108, [5116]), (5109, [5117]), (7312, [4304]),
   (7313, [4305]), (7314, [4306]), (7315, [4307]), (7316, [4308]),
   (7317, [4309]), (7318, [4310]), (7319, [4311]), (7320, [4312]),
   (7321, [4313]), (7322, [4314]), (7323, [4315]), (7324, [4316]),
   (7325, [4317]), (7326, [4318]), (7327, [4319]), (7328, [4320]),
   (7329, [4321]), (7330, [4322]), (7331, [4323]), (7332, [4324]),
   (7333, [4325]), (7334, [4326]), (7335, [4327]), (7336, [4328]),
   (7337, [4329]), (7338, [4330]), (7339, [4331]), (7340, [4332]),
   (7341, [4333]), (7342, [4334]), (7343, [4335]), (7344, [4336]),
   (7345, [4337]), (7346, [4338]), (7347, [4339]), (7348, [4340]),
   (7349, [4341]), (7350, [4342]), (7351, [4343]), (7352, [4344]),
   (7353, [4345]), (7354, [4346]), (7357, [4349]), (7358, [4350]),
   (7359, [4351]), (7680, [7681]), (7682, [7683]), (7684, [7685]),
   (7686, [7687]), (7688, [7689]), (7690, [7691]), (7692, [7693]),
   (7694, [7695]), (7696, [7697]), (7698, [7699]), (7700, [7701]),
   (7702, [7703]), (7704, [7705]), (7706, [7707]), (7708, [7709]),
   (7710, [7711]), (7712, [7713]), (7714, [7715]), (7716, [7717]),
   (7718, [7719]), (7720, [7721]), (7722, [7723]), (7724, [7725]),
   (7726, [7727]), (7728, [7729]), (7730, [7731]), (7732, [7733]),
   (7734, [7735]), (7736, [7737]), (7738, [7739]), (7740, [7741]),
   (7742, [7743]), (7744, [7745]), (7746, [7747]), (7748, [7749]),
   (7750, [7751]), (7752, [7753]), (7754, [7755]), (7756, [7757]),
   (7758, [7759]), (7760, [7761]), (7762, [7763]), (7764, [7765]),
   (7766, [7767]), (7768, [7769]), (7770, [7771]), (7772, [7773]),
   (7774, [7775]), (7776, [7777]), (7778, [7779]), (7780, [7781]),
   (7782, [7783]), (7784, [7785]), (7786, [7787]), (7788, [7789]),
   (7790, [7791]), (7792, [7793]), (7794, [7795]), (7796, [7797]),
   (7798, [7799]), (7800, [7801]), (7802, [7803]), (7804, [7805]),
   (7806, [7807]), (7808, [7809]), (7810, [7811]), (7812, [7813]),
   (7814, [7815]), (7816, [7817]), (7818, [7819]), (7820, [7821]),
   (7822, [7823]), (7824, [7825]), (7826, [7827]), (7828, [7829]),
   (7838, [223]), (7840, [7841]), (7842, [7843]), (7844, [7845]),
   (7846, [7847]), (7848, [7849]), (7850, [7851]), (7852, [7853]),
   (7854, [7855]), (7856, [7857]), (7858, [7859]), (7860, [7861]),
   (7862, [7863]), (7864, [7865]), (7866, [7867]), (7868, [7869]),
   (7870, [7871]), (7872, [7873]), (7874, [7875]), (7876, [7877]),
   (7878, [7879]), (7880, [7881]), (7882, [7883]), (7884, [7885]),
   (7886, [7887]), (7888, [7889]), (7890, [7891]), (7892, [7893]),
   (7894, [7895]), (7896, [7897]), (7898, [7899]), (7900, [7901]),
   (7902, [7903]), (7904, [7905]), (7906, [7907]), (7908, [7909]),
   (7910, [7911]), (7912, [7913]), (7914, [7915]), (7916, [7917]),
   (7918, [7919]), (7920, [7921]), (7922, [7923]), (7924, [7925]),
   (7926, [7927]), (7928, [7929]), (7930, [7931]), (7932, [7933]),
   (7934, [7935]), (7944, [7936]), (7945, [7937]), (7946, [7938]),
   (7947, [7939]), (7948, [7940]), (7949, [7941]), (7950, [7942]),
   (7951, [7943]), (7960, [7952]), (7961, [7953]), (7962, [7954]),
   (7963, [7955]), (7964, [7956]), (7965, [7957]), (7976, [7968]),
   (7977, [7969]), (7978, [7970]), (7979, [7971]), (7980, [7972]),
   (7981, [7973]), (7982, [7974]), (7983, [7975]), (7992, [7984]),
   (7993, [7985]), (7994, [7986]), (7995, [7987]), (7996, [7988]),
   (7997, [7989]), (7998, [7990]), (7999, [7991]), (8008, [8000]),
   (8009, [8001]), (8010, [8002]), (8011, [8003]), (8012, [8004]),
   (8013, [8005]), (8025, [8017]), (8027, [8019]), (8029, [8021]),
   (8031, [8023]), (8040, [8032]), (8041, [8033]), (8042, [8034]),
   (8043, [8035]), (8044, [8036]), (8045, [8037]), (8046, [8038]),
   (8047, [8039]), (8072, [8064]), (8073, [8065]), (8074, [8066]),
   (8075, [8067]), (8076, [8068]), (8077, [8069]), (8078, [8070]),
   (8079, [8071]), (8088, [8080]), (8089, [8081]), (8090, [8082]),
   (8091, [8083]), (8092, [8084]), (8093, [8085]), (8094, [8086]),
   (8095, [8087]), (8104, [8096]), (8105, [8097]), (8106, [8098]),
   (8107, [8099]), (8108, [8100]), (8109, [8101]), (8110, [8102]),
   (8111, [8103]), (8120, [8112]), (8121, [8113]), (8122, [8048]),
   (8123, [8049]), (8124, [8115]), (8136, [8050]), (8137, [8051]),
   (8138, [8052]), (8139, [8053]), (8140, [8131]), (8152, [8144]),
   (8153, [8145]), (8154, [8054]), (8155, [8055]), (8168, [8160]),
   (8169, [8161]), (8170, [8058]), (8171, [8059]), (8172, [8165]),
   (8184, [8056]), (8185, [8057]), (8186, [8060]), (8187, [8061]),
   (8188, [8179]), (8486, [969]), (8490, [107]), (8491, [229]),
   (8498, [8526]), (8544, [8560]), (8545, [8561]), (8546, [8562]),
   (8547, [8563]), (8548, [8564]), (8549, [8565]), (8550, [8566]),
   (8551, [8567]), (8552, [8568]), (8553, [8569]), (8554, [8570]),
   (8555, [8571]), (8556, [8572]), (8557, [8573]), (8558, [8574]),
   (8559, [8575]), (8579, [8580]), (9398, [9424]), (9399, [9425]),
   (9400, [9426]), (9401, [9427]), (9402, [9428]), (9403, [9429]),
   (9404, [9430]), (9405, [9431]), (9406, [9432]), (9407, [9433]),
   (9408, [9434]), (9409, [9435]), (9410, [9436]), (9411, [9437]),
   (9412, [9438]), (9413, [9439]), (9414, [9440]), (9415, [9441]),
   (9416, [9442]), (9417, [9443]), (9418, [9444]), (9419, [9445]),
   (9420, [9446]), (9421, [9447]), (9422, [9448]), (9423, [9449]),
   (11264, [11312]), (11265, [11313]), (11266, [11314]), (11267, [11315]),
   (11268, [11316]), (11269, [11317]), (11270, [11318]), (11271, [11319]),
   (11272, [11320]), (11273, [11321]), (11274, [11322]), (11275, [11323]),
   (11276, [11324]), (11277, [11325]), (11278, [11326]), (11279, [11327]),
   (11280, [11328]), (11281, [11329]), (11282, [11330]), (11283, [11331]),
   (11284, [11332]), (11285, [11333]), (11286, [11334]), (11287, [11335]),
   (11288, [11336]), (11289, [11337]), (11290, [11338]), (11291, [11339]),
   (11292, [11340]), (11293, [11341]), (11294, [11342]), (11295, [11343]),
   (11296, [11344]), (11297, [11345]), (11298, [11346]), (11299, [11347]),
   (11300, [11348]), (11301, [11349]), (11302, [11350]), (11303, [11351]),
   (11304, [11352]), (11305, [11353]), (11306, [11354]), (11307, [11355]),
   (11308, [11356]), (11309, [11357]), (11310, [11358]), (11311, [11359]),
   (11360, [11361]), (11362, [619]), (11363, [7549]), (11364, [637]),
   (11367, [11368]), (11369, [11370]), (11371, [11372]), (11373, [593]),
   (11374, [625]), (11375, [592]), (11376, [594]), (11378, [11379]),
   (11381, [11382]), (11390, [575]), (11391, [576]), (11392, [11393]),
   (11394, [11395]), (11396, [11397]), (11398, [11399]), (11400, [11401]),
   (11402, [11403]), (11404, [11405]), (11406, [11407]), (11408, [11409]),
   (11410, [11411]), (11412, [11413]), (11414, [11415]), (11416, [11417]),
   (11418, [11419]), (11420, [11421]), (11422, [11423]), (11424, [11425]),
   (11426, [11427]), (11428, [11429]), (11430, [11431]), (11432, [11433]),
   (11434, [11435]), (11436, [11437]), (11438, [11439]), (11440, [11441]),
   (11442, [11443]), (11444, [11445]), (11446, [11447]), (11448, [11449]),
   (11450, [11451]), (11452, [11453]), (11454, [11455]), (11456, [11457]),
   (11458, [11459]), (11460, [11461]), (11462, [11463]), (11464, [11465]),
   (11466, [11467]), (11468, [11469]), (11470, [11471]), (11472, [11473]),
   (11474, [11475]), (11476, [11477]), (11478, [11479]), (11480, [11481]),
   (11482, [11483]), (11484, [11485]), (11486, [11487]), (11488, [11489]),
   (11490, [11491]), (11499, [11500]), (11501, [11502]), (11506, [11507]),
   (42560, [42561]), (42562, [42563]), (42564, [42565]), (42566, [42567]),
   (42568, [42569]), (42570, [42571]), (42572, [42573]), (42574, [42575]),
   (42576, [42577]), (42578, [42579]), (42580, [42581]), (42582, [42583]),
   (42584, [42585]), (42586, [42587]), (42588, [42589]), (42590, [42591]),
   (42592, [42593]), (42594, [42595]), (42596, [42597]), (42598, [42599]),
   (42600, [42601]), (42602, [42603]), (42604, [42605]), (42624, [42625]),
   (42626, [42627]), (42628, [42629]), (42630, [42631]), (42632, [42633]),
   (42634, [42635]), (42636, [42637]), (42638, [42639]), (42640, [42641]),
   (42642, [42643]), (42644, [42645]), (42646, [42647]), (42648, [42649]),
   (42650, [42651]), (42786, [42787]), (42788, [42789]), (42790, [42791]),
   (42792, [42793]), (42794, [42795]), (42796, [42797]), (42798, [42799]),
   (42802, [42803]), (42804, [42805]), (42806, [42807]), (42808, [42809]),
   (42810, [42811]), (42812, [42813]), (42814, [42815]), (42816, [42817]),
   (42818, [42819]), (42820, [42821]), (42822, [42823]), (42824, [42825]),
   (42826, [42827]), (42828, [42829]), (42830, [42831]), (42832, [42833]),
   (42834, [42835]), (42836, [42837]), (42838, [42839]), (42840, [42841]),
   (42842, [42843]), (42844, [42845]), (42846, [42847]), (42848, [42849]),
   (42850, [42851]), (42852, [42853]), (42854, [42855]), (42856, [42857]),
   (42858, [42859]), (42860, [42861]), (42862, [42863]), (42873, [42874]),
   (42875, [42876]), (42877, [7545]), (42878, [42879]), (42880, [42881]),
   (42882, [42883]), (42884, [42885]), (42886, [42887]), (42891, [42892]),
   (42893, [613]), (42896, [42897]), (42898, [42899]), (42902, [42903]),
   (42904, [42905]), (42906, [42907]), (42908, [42909]), (42910, [42911]),
   (42912, [42913]), (42914, [42915]), (42916, [42917]), (42918, [42919]),
   (42920, [42921]), (42922, [614]), (42923, [604]), (42924, [609]),
   (42925, [620]), (42926, [618]), (42928, [670]), (42929, [647]),
   (42930, [669]), (42931, [43859]), (42932, [42933]), (42934, [42935]),
   (42936, [42937]), (42938, [42939]), (42940, [42941]), (42942, [42943]),
   (42944, [42945]), (42946, [42947]), (42948, [42900]), (42949, [642]),
   (42950, [7566]), (42951, [42952]), (42953, [42954]), (42960, [42961]),
   (42966, [42967]), (42968, [42969]), (42997, [42998]), (65313, [65345]),
   (65314, [65346]), (65315, [65347]), (65316, [65348]), (65317, [65349]),
   (65318, [65350]), (65319, [65351]), (65320, [65352]), (65321, [65353]),
   (65322, [65354]), (65323, [65355]), (65324, [65356]), (65325, [65357]),
   (65326, [65358]), (65327, [65359]), (65328, [65360]), (65329, [65361]),
   (65330, [65362]), (65331, [65363]), (65332, [65364]), (65333, [65365]),
   (65334, [65366]), (65335, [65367]), (65336, [65368]), (65337, [65369]),
   (65338, [65370]), (66560, [66600]), (66561, [66601]), (66562, [66602]),
   (66563, [66603]), (66564, [66604]), (66565, [66605]), (66566, [66606]),
   (66567, [66607]), (66568, [66608]), (66569, [66609]), (66570, [66610]),
   (66571, [66611]), (66572, [66612]), (66573, [66613]), (66574, [66614]),
   (66575, [66615]), (66576, [66616]), (66577, [66617]), (66578, [66618]),
   (66579, [66619]), (66580, [66620]), (66581, [66621]), (66582, [66622]),
   (66583, [66623]), (66584, [66624]), (66585, [66625]), (66586, [66626]),
   (66587, [66627]), (66588, [66628]), (66589, [66629]), (66590, [66630]),
   (66591, [66631]), (66592, [66632]), (66593, [66633]), (66594, [66634]),
   (66595, [66635]), (66596, [66636]), (66597, [66637]), (66598, [66638]),
   (66599, [66639]), (66736, [66776]), (66737, [66777]), (66738, [66778]),
   (66739, [66779]), (66740, [66780]), (66741, [66781]), (66742, [66782]),
   (66743, [66783]), (66744, [66784]), (66745, [66785]), (66746, [66786]),
   (66747, [66787]), (66748, [66788]), (66749, [66789]), (66750, [66790]),
   (66751, [66791]), (66752, [66792]), (66753, [66793]), (66754, [66794]),
   (66755, [66795]), (66756, [66796]), (66757, [66797]), (66758, [66798]),
   (66759, [66799]), (66760, [66800]), (66761, [66801]), (66762, [66802]),
   (66763, [66803]), (66764, [66804]), (66765, [66805]), (66766, [66806]),
   (66767, [66807]), (66768, [66808]), (66769, [66809]), (66770, [66810]),
   (66771, [66811]), (66928, [66967]), (66929, [66968]), (66930, [66969]),
   (66931, [66970]), (66932, [66971]), (66933, [66972]), (66934, [66973]),
   (66935, [66974]), (66936, [66975]), (66937, [66976]), (66938, [66977]),
   (66940, [66979]), (66941, [66980]), (66942, [66981]), (66943, [66982]),
   (66944, [66983]), (66945, [66984]), (66946, [66985]), (66947, [66986]),
   (66948, [66987]), (66949, [66988]), (66950, [66989]), (66951, [66990]),
   (66952, [66991]), (66953, [66992]), (66954, [66993]), (66956, [66995]),
   (66957, [66996]), (66958, [66997]), (66959, [66998]), (66960, [66999]),
   (66961, [67000]), (66962, [67001]), (66964, [67003]), (66965, [67004]),
   (68736, [68800]), (68737, [68801]), (68738, [68802]), (68739, [68803]),
   (68740, [68804]), (68741, [68805]), (68742, [68806]), (68743, [68807]),
   (68744, [68808]), (68745, [68809]), (68746, [68810]), (68747, [68811]),
   (68748, [68812]), (68749, [68813]), (68750, [68814]), (68751, [68815]),
   (68752, [68816]), (68753, [68817]), (68754, [68818]), (68755, [68819]),
   (68756, [68820]), (68757, [68821]), (68758, [68822]), (68759, [68823]),
   (68760, [68824]), (68761, [68825]), (68762, [68826]), (68763, [68827]),
   (68764, [68828]), (68765, [68829]), (68766, [68830]), (68767, [68831]),
   (68768, [68832]), (68769, [68833]), (68770, [68834]), (68771, [68835]),
   (68772, [68836]), (68773, [68837]), (68774, [68838]), (68775, [68839]),
   (68776, [68840]), (68777, [68841]), (68778, [68842]), (68779, [68843]),
   (68780, [68844]), (68781, [68845]), (68782, [68846]), (68783, [68847]),
   (68784, [68848]), (68785, [68849]), (68786, [68850]), (71840, [71872]),
   (71841, [71873]), (71842, [71874]), (71843, [71875]), (71844, [71876]),
   (71845, [71877]), (71846, [71878]), (71847, [71879]), (71848, [71880]),
   (71849, [71881]), (71850, [71882]), (71851, [71883]), (71852, [71884]),
   (71853, [71885]), (71854, [71886]), (71855, [71887]), (71856, [71888]),
   (71857, [71889]), (71858, [71890]), (71859, [71891]), (71860, [71892]),
   (71861, [71893]), (71862, [71894]), (71863, [71895]), (71864, [71896]),
   (71865, [71897]), (71866, [71898]), (71867, [71899]), (71868, [71900]),
   (71869, [71901]), (71870, [71902]), (71871, [71903]), (93760, [93792]),
   (93761, [93793]), (93762, [93794]), (93763, [93795]), (93764, [93796]),
   (93765, [93797]), (93766, [93798]), (93767, [93799]), (93768, [93800]),
   (93769, [93801]), (93770, [93802]), (93771, [93803]), (93772, [93804]),
   (93773, [93805]), (93774, [93806]), (93775, [93807]), (93776, [93808]),
   (93777, [93809]), (93778, [93810]), (93779, [93811]), (93780, [93812]),
   (93781, [93813]), (93782, [93814]), (93783, [93815]), (93784, [93816]),
   (93785, [93817]), (93786, [93818]), (93787, [93819]), (93788, [93820]),
   (93789, [93821]), (93790, [93822]), (93791, [93823]), (125184, [125218]),
   (125185, [125219]), (125186, [125220]), (125187, [125221]), (125188, [125222]),
   (125189, [125223]), (125190, [125224]), (125191, [125225]), (125192, [125226]),
   (125193, [125227]), (125194, [125228]), (125195, [125229]), (125196, [125230]),
   (125197, [125231]), (125198, [125232]), (125199, [125233]), (125200, [125234]),
   (125201, [125235]), (125202, [125236]), (125203, [125237]), (125204, [125238]),
   (125205, [125239]), (125206, [125240]), (125207, [125241]), (125208, [125242]),
   (125209, [125243]), (125210, [125244]), (125211, [125245]), (125212, [125246]),
   (125213, [125247]), (125214, [125248]), (125215, [125249]), (125216, [125250]),
   (125217, [125251])]

/-- `str.lower()` on one character (context-free part). -/
def pyLowerChar (c : Char) : List Char :=
  match pyLowerMap.find? (fun p => p.1 == c.toNat) with
  | some p => p.2.map Char.ofNat
  | none => [c]

/-- Codepoints that CPython's capital-sigma context scan treats as cased
(first non-case-ignorable neighbour decides finality); generated
behaviourally from CPython's `str.lower`. -/
def pyCasedCodes : List Nat :=
  [65, 66, 67, 68, 69, 70, 71, 72, 73, 74, 75, 76, 77, 78,
   79, 80, 81, 82, 83, 84, 85, 86, 87, 88, 89, 90, 97, 98,
   99, 100, 101, 102, 103, 104, 105, 106, 107, 108, 109, 110, 111, 112,
   113, 114, 115, 116, 117, 118, 119, 120, 121, 122, 170, 181, 186, 192,
   193, 194, 195, 196, 197, 198, 199, 200, 201, 202, 203, 204, 205, 206,
   207, 208, 209, 210, 211, 212, 213, 214, 216, 217, 218, 219, 220, 221,
   222, 223, 224, 225, 226, 227, 228, 229, 230, 231, 232, 233, 234, 235,
   236, 237, 238, 239, 240, 241, 242, 243, 244, 245, 246, 248, 249, 250,
   251, 252, 253, 254, 255, 256, 257, 258, 259, 260, 261, 262, 263, 264,
   265, 266, 267, 268, 269, 270, 271, 272, 273, 274, 275, 276, 277, 278,
   279, 280, 281, 282, 283, 284, 285, 286, 287, 288, 289, 290, 291, 292,
   293, 294, 295, 296, 297, 298, 299, 300, 301, 302, 303, 304, 305, 306,
   307, 308, 309, 310, 311, 312, 313, 314, 315, 316, 317, 318, 319, 320,
   321, 322, 323, 324, 325, 326, 327, 328, 329, 330, 331, 332, 333, 334,
   335, 336, 337, 338, 339, 340, 341, 342, 343, 344, 345, 346, 347, 348,
   349, 350, 351, 352, 353, 354, 355, 356, 357, 358, 359, 360, 361, 362,
   363, 364, 365, 366, 367, 368, 369, 370, 371, 372, 373, 374, 375, 376,
   377, 378, 379, 380, 381, 382, 383, 384, 385, 386, 387, 388, 389, 390,
   391, 392, 393, 394, 395, 396, 397, 398, 399, 400, 401, 402, 403, 404,
   405, 406, 407, 408, 409, 410, 411, 412, 413, 414, 415, 416, 417, 418,
   419, 420, 421, 422, 423, 424, 425, 426, 427, 428, 429, 430, 431, 432,
   433, 434, 435, 436, 437, 438, 439, 440, 441, 442, 444, 445, 446, 447,
   452, 453, 454, 455, 456, 457, 458, 459, 460, 461, 462, 463, 464, 465,
   466, 467, 468, 469, 470, 471, 472, 473, 474, 475, 476, 477, 478, 479,
   480, 481, 482, 483, 484, 485, 486, 487, 488, 489, 490, 491, 492, 493,
   494, 495, 496, 497, 498, 499, 500, 501, 502, 503, 504, 505, 506, 507,
   508, 509, 510, 511, 512, 513, 514, 515, 516, 517, 518, 519, 520, 521,
   522, 523, 524, 525, 526, 527, 528, 529, 530, 531, 532, 533, 534, 535,
   536, 537, 538, 539, 540, 541, 542, 543, 544, 545, 546, 547, 548, 549,
   550, 551, 552, 553, 554, 555, 556, 557, 558, 559, 560, 561, 562, 563,
   564, 565, 566, 567, 568, 569, 570, 571, 572, 573, 574, 575, 576, 577,
   578, 579, 580, 581, 582, 583, 584, 585, 586, 587, 588, 589, 590, 591,
   592, 593, 594, 595, 596, 597, 598, 599, 600, 601, 602, 603, 604, 605,
   606, 607, 608, 609, 610, 611, 612, 613, 614, 615, 616, 617, 618, 619,
   620, 621, 622, 623, 624, 625, 626, 627, 628, 629, 630, 631, 632, 633,
   634, 635, 636, 637, 638, 639, 640, 641, 642, 643, 644, 645, 646, 647,
   648, 649, 650, 651, 652, 653, 654, 655, 656, 657, 658, 659, 661, 662,
   663, 664, 665, 666, 667, 668, 669, 670, 671, 672, 673, 674, 675, 676,
   677, 678, 679, 680, 681, 682, 683, 684, 685, 686, 687, 880, 881, 882,
   883, 886, 887, 891, 892, 893, 895, 902, 904, 905, 906, 908, 910, 911,
   912, 913, 914, 915, 916, 917, 918, 919, 920, 921, 922, 923, 924, 925,
   926, 927, 928, 929, 931, 932, 933, 934, 935, 936, 937, 938, 939, 940,
   941, 942, 943, 944, 945, 946, 947, 948, 949, 950, 951, 952, 953, 954,
   955, 956, 957, 958, 959, 960, 961, 962, 963, 964, 965, 966, 967, 968,
   969, 970, 971, 972, 973, 974, 975, 976, 977, 978, 979, 980, 981, 982,
   983, 984, 985, 986, 987, 988, 989, 990, 991, 992, 993, 994, 995, 996,
   997, 998, 999, 1000, 1001, 1002, 1003, 1004, 1005, 1006, 1007, 1008, 1009, 1010,
   1011, 1012, 1013, 1015, 1016, 1017, 1018, 1019, 1020, 1021, 1022, 1023, 1024, 1025,
   1026, 1027, 1028, 1029, 1030, 1031, 1032, 1033, 1034, 1035, 1036, 1037, 1038, 1039,
   1040, 1041, 1042, 1043, 1044, 1045, 1046, 1047, 1048, 1049, 1050, 1051, 1052, 1053,
   1054, 1055, 1056, 1057, 1058, 1059, 1060, 1061, 1062, 1063, 1064, 1065, 1066, 1067,
   1068, 1069, 1070, 1071, 1072, 1073, 1074, 1075, 1076, 1077, 1078, 1079, 1080, 1081,
   1082, 1083, 1084, 1085, 1086, 1087, 1088, 1089, 1090, 1091, 1092, 1093, 1094, 1095,
   1096, 1097, 1098, 1099, 1100, 1101, 1102, 1103, 1104, 1105, 1106, 1107, 1108, 1109,
   1110, 1111, 1112, 1113, 1114, 1115, 1116, 1117, 1118, 1119, 1120, 1121, 1122, 1123,
   1124, 1125, 1126, 1127, 1128, 1129, 1130, 1131, 1132, 1133, 1134, 1135, 1136, 1137,
   1138, 1139, 1140, 1141, 1142, 1143, 1144, 1145, 1146, 1147, 1148, 1149, 1150, 1151,
   1152, 1153, 1162, 1163, 1164, 1165, 1166, 1167, 1168, 1169, 1170, 1171, 1172, 1173,
   1174, 1175, 1176, 1177, 1178, 1179, 1180, 1181, 1182, 1183, 1184, 1185, 1186, 1187,
   1188, 1189, 1190, 1191, 1192, 1193, 1194, 1195, 1196, 1197, 1198, 1199, 1200, 1201,
   1202, 1203, 1204, 1205, 1206, 1207, 1208, 1209, 1210, 1211, 1212, 1213, 1214, 1215,
   1216, 1217, 1218, 1219, 1220, 1221, 1222, 1223, 1224, 1225, 1226, 1227, 1228, 1229,
   1230, 1231, 1232, 1233, 1234, 1235, 1236, 1237, 1238, 1239, 1240, 1241, 1242, 1243,
   1244, 1245, 1246, 1247, 1248, 1249, 1250, 1251, 1252, 1253, 1254, 1255, 1256, 1257,
   1258, 1259, 1260, 1261, 1262, 1263, 1264, 1265, 1266, 1267, 1268, 1269, 1270, 1271,
   1272, 1273, 1274, 1275, 1276, 1277, 1278, 1279, 1280, 1281, 1282, 1283, 1284, 1285,
   1286, 1287, 1288, 1289, 1290, 1291, 1292, 1293, 1294, 1295, 1296, 1297, 1298, 1299,
   1300, 1301, 1302, 1303, 1304, 1305, 1306, 1307, 1308, 1309, 1310, 1311, 1312, 1313,
   1314, 1315, 1316, 1317, 1318, 1319, 1320, 1321, 1322, 1323, 1324, 1325, 1326, 1327,
   1329, 1330, 1331, 1332, 1333, 1334, 1335, 1336, 1337, 1338, 1339, 1340, 1341, 1342,
   1343, 1344, 1345, 1346, 1347, 1348, 1349, 1350, 1351, 1352, 1353, 1354, 1355, 1356,
   1357, 1358, 1359, 1360, 1361, 1362, 1363, 1364, 1365, 1366, 1376, 1377, 1378, 1379,
   1380, 1381, 1382, 1383, 1384, 1385, 1386, 1387, 1388, 1389, 1390, 1391, 1392, 1393,
   1394, 1395, 1396, 1397, 1398, 1399, 1400, 1401, 1402, 1403, 1404, 1405, 1406, 1407,
   1408, 1409, 1410, 1411, 1412, 1413, 1414, 1415, 1416, 4256, 4257, 4258, 4259, 4260,
   4261, 4262, 4263, 4264, 4265, 4266, 4267, 4268, 4269, 4270, 4271, 4272, 4273, 4274,
   4275, 4276, 4277, 4278, 4279, 4280, 4281, 4282, 4283, 4284, 4285, 4286, 4287, 4288,
   4289, 4290, 4291, 4292, 4293, 4295, 4301, 4304, 4305, 4306, 4307, 4308, 4309, 4310,
   4311, 4312, 4313, 4314, 4315, 4316, 4317, 4318, 4319, 4320, 4321, 4322, 4323, 4324,
   4325, 4326, 4327, 4328, 4329, 4330, 4331, 4332, 4333, 4334, 4335, 4336, 4337, 4338,
   4339, 4340, 4341, 4342, 4343, 4344, 4345, 4346, 4349, 4350, 4351, 5024, 5025, 5026,
   5027, 5028, 5029, 5030, 5031, 5032, 5033, 5034, 5035, 5036, 5037, 5038, 5039, 5040,
   5041, 5042, 5043, 5044, 5045, 5046, 5047, 5048, 5049, 5050, 5051, 5052, 5053, 5054,
   5055, 5056, 5057, 5058, 5059, 5060, 5061, 5062, 5063, 5064, 5065, 5066, 5067, 5068,
   5069, 5070, 5071, 5072, 5073, 5074, 5075, 5076, 5077, 5078, 5079, 5080, 5081, 5082,
   5083, 5084, 5085, 5086, 5087, 5088, 5089, 5090, 5091, 5092, 5093, 5094, 5095, 5096,
   5097, 5098, 5099, 5100, 5101, 5102, 5103, 5104, 5105, 5106, 5107, 5108, 5109, 5112,
   5113, 5114, 5115, 5116, 5117, 7296, 7297, 7298, 7299, 7300, 7301, 7302, 7303, 7304,
   7312, 7313, 7314, 7315, 7316, 7317, 7318, 7319, 7320, 7321, 7322, 7323, 7324, 7325,
   7326, 7327, 7328, 7329, 7330, 7331, 7332, 7333, 7334, 7335, 7336, 7337, 7338, 7339,
   7340, 7341, 7342, 7343, 7344, 7345, 7346, 7347, 7348, 7349, 7350, 7351, 7352, 7353,
   7354, 7357, 7358, 7359, 7424, 7425, 7426, 7427, 7428, 7429, 7430, 7431, 7432, 7433,
   7434, 7435, 7436, 7437, 7438, 7439, 7440, 7441, 7442, 7443, 7444, 7445, 7446, 7447,
   7448, 7449, 7450, 7451, 7452, 7453, 7454, 7455, 7456, 7457, 7458, 7459, 7460, 7461,
   7462, 7463, 7464, 7465, 7466, 7467, 7531, 7532, 7533, 7534, 7535, 7536, 7537, 7538,
   7539, 7540, 7541, 7542, 7543, 7545, 7546, 7547, 7548, 7549, 7550, 7551, 7552, 7553,
   7554, 7555, 7556, 7557, 7558, 7559, 7560, 7561, 7562, 7563, 7564, 7565, 7566, 7567,
   7568, 7569, 7570, 7571, 7572, 7573, 7574, 7575, 7576, 7577, 7578, 7680, 7681, 7682,
   7683, 7684, 7685, 7686, 7687, 7688, 7689, 7690, 7691, 7692, 7693, 7694, 7695, 7696,
   7697, 7698, 7699, 7700, 7701, 7702, 7703, 7704, 7705, 7706, 7707, 7708, 7709, 7710,
   7711, 7712, 7713, 7714, 7715, 7716, 7717, 7718, 7719, 7720, 7721, 7722, 7723, 7724,
   7725, 7726, 7727, 7728, 7729, 7730, 7731, 7732, 7733, 7734, 7735, 7736, 7737, 7738,
   7739, 7740, 7741, 7742, 7743, 7744, 7745, 7746, 7747, 7748, 7749, 7750, 7751, 7752,
   7753, 7754, 7755, 7756, 7757, 7758, 7759, 7760, 7761, 7762, 7763, 7764, 7765, 7766,
   7767, 7768, 7769, 7770, 7771, 7772, 7773, 7774, 7775, 7776, 7777, 7778, 7779, 7780,
   7781, 7782, 7783, 7784, 7785, 7786, 7787, 7788, 7789, 7790, 7791, 7792, 7793, 7794,
   7795, 7796, 7797, 7798, 7799, 7800, 7801, 7802, 7803, 7804, 7805, 7806, 7807, 7808,
   7809, 7810, 7811, 7812, 7813, 7814, 7815, 7816, 7817, 7818, 7819, 7820, 7821, 7822,
   7823, 7824, 7825, 7826, 7827, 7828, 7829, 7830, 7831, 7832, 7833, 7834, 7835, 7836,
   7837, 7838, 7839, 7840, 7841, 7842, 7843, 7844, 7845, 7846, 7847, 7848, 7849, 7850,
   7851, 7852, 7853, 7854, 7855, 7856, 7857, 7858, 7859, 7860, 7861, 7862, 7863, 7864,
   7865, 7866, 7867, 7868, 7869, 7870, 7871, 7872, 7873, 7874, 7875, 7876, 7877, 7878,
   7879, 7880, 7881, 7882, 7883, 7884, 7885, 7886, 7887, 7888, 7889, 7890, 7891, 7892,
   7893, 7894, 7895, 7896, 7897, 7898, 7899, 7900, 7901, 7902, 7903, 7904, 7905, 7906,
   7907, 7908, 7909, 7910, 7911, 7912, 7913, 7914, 7915, 7916, 7917, 7918, 7919, 7920,
   7921, 7922, 7923, 7924, 7925, 7926, 7927, 7928, 7929, 7930, 7931, 7932, 7933, 7934,
   7935, 7936, 7937, 7938, 7939, 7940, 7941, 7942, 7943, 7944, 7945, 7946, 7947, 7948,
   7949, 7950, 7951, 7952, 7953, 7954, 7955, 7956, 7957, 7960, 7961, 7962, 7963, 7964,
   7965, 7968, 7969, 7970, 7971, 7972, 7973, 7974, 7975, 7976, 7977, 7978, 7979, 7980,
   7981, 7982, 7983, 7984, 7985, 7986, 7987, 7988, 7989, 7990, 7991, 7992, 7993, 7994,
   7995, 7996, 7997, 7998, 7999, 8000, 8001, 8002, 8003, 8004, 8005, 8008, 8009, 8010,
   8011, 8012, 8013, 8016, 8017, 8018, 8019, 8020, 8021, 8022, 8023, 8025, 8027, 8029,
   8031, 8032, 8033, 8034, 8035, 8036, 8037, 8038, 8039, 8040, 8041, 8042, 8043, 8044,
   8045, 8046, 8047, 8048, 8049, 8050, 8051, 8052, 8053, 8054, 8055, 8056, 8057, 8058,
   8059, 8060, 8061, 8064, 8065, 8066, 8067, 8068, 8069, 8070, 8071, 8072, 8073, 8074,
   8075, 8076, 8077, 8078, 8079, 8080, 8081, 8082, 8083, 8084, 8085, 8086, 8087, 8088,
   8089, 8090, 8091, 8092, 8093, 8094, 8095, 8096, 8097, 8098, 8099, 8100, 8101, 8102,
   8103, 8104, 8105, 8106, 8107, 8108, 8109, 8110, 8111, 8112, 8113, 8114, 8115, 8116,
   8118, 8119, 8120, 8121, 8122, 8123, 8124, 8126, 8130, 8131, 8132, 8134, 8135, 8136,
   8137, 8138, 8139, 8140, 8144, 8145, 8146, 8147, 8150, 8151, 8152, 8153, 8154, 8155,
   8160, 8161, 8162, 8163, 8164, 8165, 8166, 8167, 8168, 8169, 8170, 8171, 8172, 8178,
   8179, 8180, 8182, 8183, 8184, 8185, 8186, 8187, 8188, 8450, 8455, 8458, 8459, 8460,
   8461, 8462, 8463, 8464, 8465, 8466, 8467, 8469, 8473, 8474, 8475, 8476, 8477, 8484,
   8486, 8488, 8490, 8491, 8492, 8493, 8495, 8496, 8497, 8498, 8499, 8500, 8505, 8508,
   8509, 8510, 8511, 8517, 8518, 8519, 8520, 8521, 8526, 8544, 8545, 8546, 8547, 8548,
   8549, 8550, 8551, 8552, 8553, 8554, 8555, 8556, 8557, 8558, 8559, 8560, 8561, 8562,
   8563, 8564, 8565, 8566, 8567, 8568, 8569, 8570, 8571, 8572, 8573, 8574, 8575, 8579,
   8580, 9398, 9399, 9400, 9401, 9402, 9403, 9404, 9405, 9406, 9407, 9408, 9409, 9410,
   9411, 9412, 9413, 9414, 9415, 9416, 9417, 9418, 9419, 9420, 9421, 9422, 9423, 9424,
   9425, 9426, 9427, 9428, 9429, 9430, 9431, 9432, 9433, 9434, 9435, 9436, 9437, 9438,
   9439, 9440, 9441, 9442, 9443, 9444, 9445, 9446, 9447, 9448, 9449, 11264, 11265, 11266,
   11267, 11268, 11269, 11270, 11271, 11272, 11273, 11274, 11275, 11276, 11277, 11278, 11279, 11280,
   11281, 11282, 11283, 11284, 11285, 11286, 11287, 11288, 11289, 11290, 11291, 11292, 11293, 11294,
   11295, 11296, 11297, 11298, 11299, 11300, 11301, 11302, 11303, 11304, 11305, 11306, 11307, 11308,
   11309, 11310, 11311, 11312, 11313, 11314, 11315, 11316, 11317, 11318, 11319, 11320, 11321, 11322,
   11323, 11324, 11325, 11326, 11327, 11328, 11329, 11330, 11331, 11332, 11333, 11334, 11335, 11336,
   11337, 11338, 11339, 11340, 11341, 11342, 11343, 11344, 11345, 11346, 11347, 11348, 11349, 11350,
   11351, 11352, 11353, 11354, 11355, 11356, 11357, 11358, 11359, 11360, 11361, 11362, 11363, 11364,
   11365, 11366, 11367, 11368, 11369, 11370, 11371, 11372, 11373, 11374, 11375, 11376, 11377, 11378,
   11379, 11380, 11381, 11382, 11383, 11384, 11385, 11386, 11387, 11390, 11391, 11392, 11393, 11394,
   11395, 11396, 11397, 11398, 11399, 11400, 11401, 11402, 11403, 11404, 11405, 11406, 11407, 11408,
   11409, 11410, 11411, 11412, 11413, 11414, 11415, 11416, 11417, 11418, 11419, 11420, 11421, 11422,
   11423, 11424, 11425, 11426, 11427, 11428, 11429, 11430, 11431, 11432, 11433, 11434, 11435, 11436,
   11437, 11438, 11439, 11440, 11441, 11442, 11443, 11444, 11445, 11446, 11447, 11448, 11449, 11450,
   11451, 11452, 11453, 11454, 11455, 11456, 11457, 11458, 11459, 11460, 11461, 11462, 11463, 11464,
   11465, 11466, 11467, 11468, 11469, 11470, 11471, 11472, 11473, 11474, 11475, 11476, 11477, 11478,
   11479, 11480, 11481, 11482, 11483, 11484, 11485, 11486, 11487, 11488, 11489, 11490, 11491, 11492,
   11499, 11500, 11501, 11502, 11506, 11507, 11520, 11521, 11522, 11523, 11524, 11525, 11526, 11527,
   11528, 11529, 11530, 11531, 11532, 11533, 11534, 11535, 11536, 11537, 11538, 11539, 11540, 11541,
   11542, 11543, 11544, 11545, 11546, 11547, 11548, 11549, 11550, 11551, 11552, 11553, 11554, 11555,
   11556, 11557, 11559, 11565, 42560, 42561, 42562, 42563, 42564, 42565, 42566, 42567, 42568, 42569,
   42570, 42571, 42572, 42573, 42574, 42575, 42576, 42577, 42578, 42579, 42580, 42581, 42582, 42583,
   42584, 42585, 42586, 42587, 42588, 42589, 42590, 42591, 42592, 42593, 42594, 42595, 42596, 42597,
   42598, 42599, 42600, 42601, 42602, 42603, 42604, 42605, 42624, 42625, 42626, 42627, 42628, 42629,
   42630, 42631, 42632, 42633, 42634, 42635, 42636, 42637, 42638, 42639, 42640, 42641, 42642, 42643,
   42644, 42645, 42646, 42647, 42648, 42649, 42650, 42651, 42786, 42787, 42788, 42789, 42790, 42791,
   42792, 42793, 42794, 42795, 42796, 42797, 42798, 42799, 42800, 42801, 42802, 42803, 42804, 42805,
   42806, 42807, 42808, 42809, 42810, 42811, 42812, 42813, 42814, 42815, 42816, 42817, 42818, 42819,
   42820, 42821, 42822, 42823, 42824, 42825, 42826, 42827, 42828, 42829, 42830, 42831, 42832, 42833,
   42834, 42835, 42836, 42837, 42838, 42839, 42840, 42841, 42842, 42843, 42844, 42845, 42846, 42847,
   42848, 42849, 42850, 42851, 42852, 42853, 42854, 42855, 42856, 42857, 42858, 42859, 42860, 42861,
   42862, 42863, 42865, 42866, 42867, 42868, 42869, 42870, 42871, 42872, 42873, 42874, 42875, 42876,
   42877, 42878, 42879, 42880, 42881, 42882, 42883, 42884, 42885, 42886, 42887, 42891, 42892, 42893,
   42894, 42896, 42897, 42898, 42899, 42900, 42901, 42902, 42903, 42904, 42905, 42906, 42907, 42908,
   42909, 42910, 42911, 42912, 42913, 42914, 42915, 42916, 42917, 42918, 42919, 42920, 42921, 42922,
   42923, 42924, 42925, 42926, 42927, 42928, 42929, 42930, 42931, 42932, 42933, 42934, 42935, 42936,
   42937, 42938, 42939, 42940, 42941, 42942, 42943, 42944, 42945, 42946, 42947, 42948, 42949, 42950,
   42951, 42952, 42953, 42954, 42960, 42961, 42963, 42965, 42966, 42967, 42968, 42969, 42997, 42998,
   43002, 43824, 43825, 43826, 43827, 43828, 43829, 43830, 43831, 43832, 43833, 43834, 43835, 43836,
   43837, 43838, 43839, 43840, 43841, 43842, 43843, 43844, 43845, 43846, 43847, 43848, 43849, 43850,
   43851, 43852, 43853, 43854, 43855, 43856, 43857, 43858, 43859, 43860, 43861, 43862, 43863, 43864,
   43865, 43866, 43872, 43873, 43874, 43875, 43876, 43877, 43878, 43879, 43880, 43888, 43889, 43890,
   43891, 43892, 43893, 43894, 43895, 43896, 43897, 43898, 43899, 43900, 43901, 43902, 43903, 43904,
   43905, 43906, 43907, 43908, 43909, 43910, 43911, 43912, 43913, 43914, 43915, 43916, 43917, 43918,
   43919, 43920, 43921, 43922, 43923, 43924, 43925, 43926, 43927, 43928, 43929, 43930, 43931, 43932,
   43933, 43934, 43935, 43936, 43937, 43938, 43939, 43940, 43941, 43942, 43943, 43944, 43945, 43946,
   43947, 43948, 43949, 43950, 43951, 43952, 43953, 43954, 43955, 43956, 43957, 43958, 43959, 43960,
   43961, 43962, 43963, 43964, 43965, 43966, 43967, 64256, 64257, 64258, 64259, 64260, 64261, 64262,
   64275, 64276, 64277, 64278, 64279, 65313, 65314, 65315, 65316, 65317, 65318, 65319, 65320, 65321,
   65322, 65323, 65324, 65325, 65326, 65327, 65328, 65329, 65330, 65331, 65332, 65333, 65334, 65335,
   65336, 65337, 65338, 65345, 65346, 65347, 65348, 65349, 65350, 65351, 65352, 65353, 65354, 65355,
   65356, 65357, 65358, 65359, 65360, 65361, 65362, 65363, 65364, 65365, 65366, 65367, 65368, 65369,
   65370, 66560, 66561, 66562, 66563, 66564, 66565, 66566, 66567, 66568, 66569, 66570, 66571, 66572,
   66573, 66574, 66575, 66576, 66577, 66578, 66579, 66580, 66581, 66582, 66583, 66584, 66585, 66586,
   66587, 66588, 66589, 66590, 66591, 66592, 66593, 66594, 66595, 66596, 66597, 66598, 66599, 66600,
   66601, 66602, 66603, 66604, 66605, 66606, 66607, 66608, 66609, 66610, 66611, 66612, 66613, 66614,
   66615, 66616, 66617, 66618, 66619, 66620, 66621, 66622, 66623, 66624, 66625, 66626, 66627, 66628,
   66629, 66630, 66631, 66632, 66633, 66634, 66635, 66636, 66637, 66638, 66639, 66736, 66737, 66738,
   66739, 66740, 66741, 66742, 66743, 66744, 66745, 66746, 66747, 66748, 66749, 66750, 66751, 66752,
   66753, 66754, 66755, 66756, 66757, 66758, 66759, 66760, 66761, 66762, 66763, 66764, 66765, 66766,
   66767, 66768, 66769, 66770, 66771, 66776, 66777, 66778, 66779, 66780, 66781, 66782, 66783, 66784,
   66785, 66786, 66787, 66788, 66789, 66790, 66791, 66792, 66793, 66794, 66795, 66796, 66797, 66798,
   66799, 66800, 66801, 66802, 66803, 66804, 66805, 66806, 66807, 66808, 66809, 66810, 66811, 66928,
   66929, 66930, 66931, 66932, 66933, 66934, 66935, 66936, 66937, 66938, 66940, 66941, 66942, 66943,
   66944, 66945, 66946, 66947, 66948, 66949, 66950, 66951, 66952, 66953, 66954, 66956, 66957, 66958,
   66959, 66960, 66961, 66962, 66964, 66965, 66967, 66968, 66969, 66970, 66971, 66972, 66973, 66974,
   66975, 66976, 66977, 66979, 66980, 66981, 66982, 66983, 66984, 66985, 66986, 66987, 66988, 66989,
   66990, 66991, 66992, 66993, 66995, 66996, 66997, 66998, 66999, 67000, 67001, 67003, 67004, 68736,
   68737, 68738, 68739, 68740, 68741, 68742, 68743, 68744, 68745, 68746, 68747, 68748, 68749, 68750,
   68751, 68752, 68753, 68754, 68755, 68756, 68757, 68758, 68759, 68760, 68761, 68762, 68763, 68764,
   68765, 68766, 68767, 68768, 68769, 68770, 68771, 68772, 68773, 68774, 68775, 68776, 68777, 68778,
   68779, 68780, 68781, 68782, 68783, 68784, 68785, 68786, 68800, 68801, 68802, 68803, 68804, 68805,
   68806, 68807, 68808, 68809, 68810, 68811, 68812, 68813, 68814, 68815, 68816, 68817, 68818, 68819,
   68820, 68821, 68822, 68823, 68824, 68825, 68826, 68827, 68828, 68829, 68830, 68831, 68832, 68833,
   68834, 68835, 68836, 68837, 68838, 68839, 68840, 68841, 68842, 68843, 68844, 68845, 68846, 68847,
   68848, 68849, 68850, 71840, 71841, 71842, 71843, 71844, 71845, 71846, 71847, 71848, 71849, 71850,
   71851, 71852, 71853, 71854, 71855, 71856, 71857, 71858, 71859, 71860, 71861, 71862, 71863, 71864,
   71865, 71866, 71867, 71868, 71869, 71870, 71871, 71872, 71873, 71874, 71875, 71876, 71877, 71878,
   71879, 71880, 71881, 71882, 71883, 71884, 71885, 71886, 71887, 71888, 71889, 71890, 71891, 71892,
   71893, 71894, 71895, 71896, 71897, 71898, 71899, 71900, 71901, 71902, 71903, 93760, 93761, 93762,
   93763, 93764, 93765, 93766, 93767, 93768, 93769, 93770, 93771, 93772, 93773, 93774, 93775, 93776,
   93777, 93778, 93779, 93780, 93781, 93782, 93783, 93784, 93785, 93786, 93787, 93788, 93789, 93790,
   93791, 93792, 93793, 93794, 93795, 93796, 93797, 93798, 93799, 93800, 93801, 93802, 93803, 93804,
   93805, 93806, 93807, 93808, 93809, 93810, 93811, 93812, 93813, 93814, 93815, 93816, 93817, 93818,
   93819, 93820, 93821, 93822, 93823, 119808, 119809, 119810, 119811, 119812, 119813, 119814, 119815, 119816,
   119817, 119818, 119819, 119820, 119821, 119822, 119823, 119824, 119825, 119826, 119827, 119828, 119829, 119830,
   119831, 119832, 119833, 119834, 119835, 119836, 119837, 119838, 119839, 119840, 119841, 119842, 119843, 119844,
   119845, 119846, 119847, 119848, 119849, 119850, 119851, 119852, 119853, 119854, 119855, 119856, 119857, 119858,
   119859, 119860, 119861, 119862, 119863, 119864, 119865, 119866, 119867, 119868, 119869, 119870, 119871, 119872,
   119873, 119874, 119875, 119876, 119877, 119878, 119879, 119880, 119881, 119882, 119883, 119884, 119885, 119886,
   119887, 119888, 119889, 119890, 119891, 119892, 119894, 119895, 119896, 119897, 119898, 119899, 119900, 119901,
   119902, 119903, 119904, 119905, 119906, 119907, 119908, 119909, 119910, 119911, 119912, 119913, 119914, 119915,
   119916, 119917, 119918, 119919, 119920, 119921, 119922, 119923, 119924, 119925, 119926, 119927, 119928, 119929,
   119930, 119931, 119932, 119933, 119934, 119935, 119936, 119937, 119938, 119939, 119940, 119941, 119942, 119943,
   119944, 119945, 119946, 119947, 119948, 119949, 119950, 119951, 119952, 119953, 119954, 119955, 119956, 119957,
   119958, 119959, 119960, 119961, 119962, 119963, 119964, 119966, 119967, 119970, 119973, 119974, 119977, 119978,
   119979, 119980, 119982, 119983, 119984, 119985, 119986, 119987, 119988, 119989, 119990, 119991, 119992, 119993,
   119995, 119997, 119998, 119999, 120000, 120001, 120002, 120003, 120005, 120006, 120007, 120008, 120009, 120010,
   120011, 120012, 120013, 120014, 120015, 120016, 120017, 120018, 120019, 120020, 120021, 120022, 120023, 120024,
   120025, 120026, 120027, 120028, 120029, 120030, 120031, 120032, 120033, 120034, 120035, 120036, 120037, 120038,
   120039, 120040, 120041, 120042, 120043, 120044, 120045, 120046, 120047, 120048, 120049, 120050, 120051, 120052,
   120053, 120054, 120055, 120056, 120057, 120058, 120059, 120060, 120061, 120062, 120063, 120064, 120065, 120066,
   120067, 120068, 120069, 120071, 120072, 120073, 120074, 120077, 120078, 120079, 120080, 120081, 120082, 120083,
   120084, 120086, 120087, 120088, 120089, 120090, 120091, 120092, 120094, 120095, 120096, 120097, 120098, 120099,
   120100, 120101, 120102, 120103, 120104, 120105, 120106, 120107, 120108, 120109, 120110, 120111, 120112, 120113,
   120114, 120115, 120116, 120117, 120118, 120119, 120120, 120121, 120123, 120124, 120125, 120126, 120128, 120129,
   120130, 120131, 120132, 120134, 120138, 120139, 120140, 120141, 120142, 120143, 120144, 120146, 120147, 120148,
   120149, 120150, 120151, 120152, 120153, 120154, 120155, 120156, 120157, 120158, 120159, 120160, 120161, 120162,
   120163, 120164, 120165, 120166, 120167, 120168, 120169, 120170, 120171, 120172, 120173, 120174, 120175, 120176,
   120177, 120178, 120179, 120180, 120181, 120182, 120183, 120184, 120185, 120186, 120187, 120188, 120189, 120190,
   120191, 120192, 120193, 120194, 120195, 120196, 120197, 120198, 120199, 120200, 120201, 120202, 120203, 120204,
   120205, 120206, 120207, 120208, 120209, 120210, 120211, 120212, 120213, 120214, 120215, 120216, 120217, 120218,
   120219, 120220, 120221, 120222, 120223, 120224, 120225, 120226, 120227, 120228, 120229, 120230, 120231, 120232,
   120233, 120234, 120235, 120236, 120237, 120238, 120239, 120240, 120241, 120242, 120243, 120244, 120245, 120246,
   120247, 120248, 120249, 120250, 120251, 120252, 120253, 120254, 120255, 120256, 120257, 120258, 120259, 120260,
   120261, 120262, 120263, 120264, 120265, 120266, 120267, 120268, 120269, 120270, 120271, 120272, 120273, 120274,
   120275, 120276, 120277, 120278, 120279, 120280, 120281, 120282, 120283, 120284, 120285, 120286, 120287, 120288,
   120289, 120290, 120291, 120292, 120293, 120294, 120295, 120296, 120297, 120298, 120299, 120300, 120301, 120302,
   120303, 120304, 120305, 120306, 120307, 120308, 120309, 120310, 120311, 120312, 120313, 120314, 120315, 120316,
   120317, 120318, 120319, 120320, 120321, 120322, 120323, 120324, 120325, 120326, 120327, 120328, 120329, 120330,
   120331, 120332, 120333, 120334, 120335, 120336, 120337, 120338, 120339, 120340, 120341, 120342, 120343, 120344,
   120345, 120346, 120347, 120348, 120349, 120350, 120351, 120352, 120353, 120354, 120355, 120356, 120357, 120358,
   120359, 120360, 120361, 120362, 120363, 120364, 120365, 120366, 120367, 120368, 120369, 120370, 120371, 120372,
   120373, 120374, 120375, 120376, 120377, 120378, 120379, 120380, 120381, 120382, 120383, 120384, 120385, 120386,
   120387, 120388, 120389, 120390, 120391, 120392, 120393, 120394, 120395, 120396, 120397, 120398, 120399, 120400,
   120401, 120402, 120403, 120404, 120405, 120406, 120407, 120408, 120409, 120410, 120411, 120412, 120413, 120414,
   120415, 120416, 120417, 120418, 120419, 120420, 120421, 120422, 120423, 120424, 120425, 120426, 120427, 120428,
   120429, 120430, 120431, 120432, 120433, 120434, 120435, 120436, 120437, 120438, 120439, 120440, 120441, 120442,
   120443, 120444, 120445, 120446, 120447, 120448, 120449, 120450, 120451, 120452, 120453, 120454, 120455, 120456,
   120457, 120458, 120459, 120460, 120461, 120462, 120463, 120464, 120465, 120466, 120467, 120468, 120469, 120470,
   120471, 120472, 120473, 120474, 120475, 120476, 120477, 120478, 120479, 120480, 120481, 120482, 120483, 120484,
   120485, 120488, 120489, 120490, 120491, 120492, 120493, 120494, 120495, 120496, 120497, 120498, 120499, 120500,
   120501, 120502, 120503, 120504, 120505, 120506, 120507, 120508, 120509, 120510, 120511, 120512, 120514, 120515,
   120516, 120517, 120518, 120519, 120520, 120521, 120522, 120523, 120524, 120525, 120526, 120527, 120528, 120529,
   120530, 120531, 120532, 120533, 120534, 120535, 120536, 120537, 120538, 120540, 120541, 120542, 120543, 120544,
   120545, 120546, 120547, 120548, 120549, 120550, 120551, 120552, 120553, 120554, 120555, 120556, 120557, 120558,
   120559, 120560, 120561, 120562, 120563, 120564, 120565, 120566, 120567, 120568, 120569, 120570, 120572, 120573,
   120574, 120575, 120576, 120577, 120578, 120579, 120580, 120581, 120582, 120583, 120584, 120585, 120586, 120587,
   120588, 120589, 120590, 120591, 120592, 120593, 120594, 120595, 120596, 120598, 120599, 120600, 120601, 120602,
   120603, 120604, 120605, 120606, 120607, 120608, 120609, 120610, 120611, 120612, 120613, 120614, 120615, 120616,
   120617, 120618, 120619, 120620, 120621, 120622, 120623, 120624, 120625, 120626, 120627, 120628, 120630, 120631,
   120632, 120633, 120634, 120635, 120636, 120637, 120638, 120639, 120640, 120641, 120642, 120643, 120644, 120645,
   120646, 120647, 120648, 120649, 120650, 120651, 120652, 120653, 120654, 120656, 120657, 120658, 120659, 120660,
   120661, 120662, 120663, 120664, 120665, 120666, 120667, 120668, 120669, 120670, 120671, 120672, 120673, 120674,
   120675, 120676, 120677, 120678, 120679, 120680, 120681, 120682, 120683, 120684, 120685, 120686, 120688, 120689,
   120690, 120691, 120692, 120693, 120694, 120695, 120696, 120697, 120698, 120699, 120700, 120701, 120702, 120703,
   120704, 120705, 120706, 120707, 120708, 120709, 120710, 120711, 120712, 120714, 120715, 120716, 120717, 120718,
   120719, 120720, 120721, 120722, 120723, 120724, 120725, 120726, 120727, 120728, 120729, 120730, 120731, 120732,
   120733, 120734, 120735, 120736, 120737, 120738, 120739, 120740, 120741, 120742, 120743, 120744, 120746, 120747,
   120748, 120749, 120750, 120751, 120752, 120753, 120754, 120755, 120756, 120757, 120758, 120759, 120760, 120761,
   120762, 120763, 120764, 120765, 120766, 120767, 120768, 120769, 120770, 120772, 120773, 120774, 120775, 120776,
   120777, 120778, 120779, 122624, 122625, 122626, 122627, 122628, 122629, 122630, 122631, 122632, 122633, 122635,
   122636, 122637, 122638, 122639, 122640, 122641, 122642, 122643, 122644, 122645, 122646, 122647, 122648, 122649,
   122650, 122651, 122652, 122653, 122654, 125184, 125185, 125186, 125187, 125188, 125189, 125190, 125191, 125192,
   125193, 125194, 125195, 125196, 125197, 125198, 125199, 125200, 125201, 125202, 125203, 125204, 125205, 125206,
   125207, 125208, 125209, 125210, 125211, 125212, 125213, 125214, 125215, 125216, 125217, 125218, 125219, 125220,
   125221, 125222, 125223, 125224, 125225, 125226, 125227, 125228, 125229, 125230, 125231, 125232, 125233, 125234,
   125235, 125236, 125237, 125238, 125239, 125240, 125241, 125242, 125243, 125244, 125245, 125246, 125247, 125248,
   125249, 125250, 125251, 127280, 127281, 127282, 127283, 127284, 127285, 127286, 127287, 127288, 127289, 127290,
   127291, 127292, 127293, 127294, 127295, 127296, 127297, 127298, 127299, 127300, 127301, 127302, 127303, 127304,
   127305, 127312, 127313, 127314, 127315, 127316, 127317, 127318, 127319, 127320, 127321, 127322, 127323, 127324,
   127325, 127326, 127327, 127328, 127329, 127330, 127331, 127332, 127333, 127334, 127335, 127336, 127337, 127344,
   127345, 127346, 127347, 127348, 127349, 127350, 127351, 127352, 127353, 127354, 127355, 127356, 127357, 127358,
   127359, 127360, 127361, 127362, 127363, 127364, 127365, 127366, 127367, 127368, 127369]

/-- Case-ignorable codepoints, skipped by the capital-sigma context scan;
generated behaviourally from CPython's `str.lower`. -/
def pyCICodes : List Nat :=
  [39, 46, 58, 94, 96, 168, 173, 175, 180, 183, 184, 688, 689, 690,
   691, 692, 693, 694, 695, 696, 697, 698, 699, 700, 701, 702, 703, 704,
   705, 706, 707, 708, 709, 710, 711, 712, 713, 714, 715, 716, 717, 718,
   719, 720, 721, 722, 723, 724, 725, 726, 727, 728, 729, 730, 731, 732,
   733, 734, 735, 736, 737, 738, 739, 740, 741, 742, 743, 744, 745, 746,
   747, 748, 749, 750, 751, 752, 753, 754, 755, 756, 757, 758, 759, 760,
   761, 762, 763, 764, 765, 766, 767, 768, 769, 770, 771, 772, 773, 774,
   775, 776, 777, 778, 779, 780, 781, 782, 783, 784, 785, 786, 787, 788,
   789, 790, 791, 792, 793, 794, 795, 796, 797, 798, 799, 800, 801, 802,
   803, 804, 805, 806, 807, 808, 809, 810, 811, 812, 813, 814, 815, 816,
   817, 818, 819, 820, 821, 822, 823, 824, 825, 826, 827, 828, 829, 830,
   831, 832, 833, 834, 835, 836, 837, 838, 839, 840, 841, 842, 843, 844,
   845, 846, 847, 848, 849, 850, 851, 852, 853, 854, 855, 856, 857, 858,
   859, 860, 861, 862, 863, 864, 865, 866, 867, 868, 869, 870, 871, 872,
   873, 874, 875, 876, 877, 878, 879, 884, 885, 890, 900, 901, 903, 1155,
   1156, 1157, 1158, 1159, 1160, 1161, 1369, 1375, 1425, 1426, 1427, 1428, 1429, 1430,
   1431, 1432, 1433, 1434, 1435, 1436, 1437, 1438, 1439, 1440, 1441, 1442, 1443, 1444,
   1445, 1446, 1447, 1448, 1449, 1450, 1451, 1452, 1453, 1454, 1455, 1456, 1457, 1458,
   1459, 1460, 1461, 1462, 1463, 1464, 1465, 1466, 1467, 1468, 1469, 1471, 1473, 1474,
   1476, 1477, 1479, 1524, 1536, 1537, 1538, 1539, 1540, 1541, 1552, 1553, 1554, 1555,
   1556, 1557, 1558, 1559, 1560, 1561, 1562, 1564, 1600, 1611, 1612, 1613, 1614, 1615,
   1616, 1617, 1618, 1619, 1620, 1621, 1622, 1623, 1624, 1625, 1626, 1627, 1628, 1629,
   1630, 1631, 1648, 1750, 1751, 1752, 1753, 1754, 1755, 1756, 1757, 1759, 1760, 1761,
   1762, 1763, 1764, 1765, 1766, 1767, 1768, 1770, 1771, 1772, 1773, 1807, 1809, 1840,
   1841, 1842, 1843, 1844, 1845, 1846, 1847, 1848, 1849, 1850, 1851, 1852, 1853, 1854,
   1855, 1856, 1857, 1858, 1859, 1860, 1861, 1862, 1863, 1864, 1865, 1866, 1958, 1959,
   1960, 1961, 1962, 1963, 1964, 1965, 1966, 1967, 1968, 2027, 2028, 2029, 2030, 2031,
   2032, 2033, 2034, 2035, 2036, 2037, 2042, 2045, 2070, 2071, 2072, 2073, 2074, 2075,
   2076, 2077, 2078, 2079, 2080, 2081, 2082, 2083, 2084, 2085, 2086, 2087, 2088, 2089,
   2090, 2091, 2092, 2093, 2137, 2138, 2139, 2184, 2192, 2193, 2200, 2201, 2202, 2203,
   2204, 2205, 2206, 2207, 2249, 2250, 2251, 2252, 2253, 2254, 2255, 2256, 2257, 2258,
   2259, 2260, 2261, 2262, 2263, 2264, 2265, 2266, 2267, 2268, 2269, 2270, 2271, 2272,
   2273, 2274, 2275, 2276, 2277, 2278, 2279, 2280, 2281, 2282, 2283, 2284, 2285, 2286,
   2287, 2288, 2289, 2290, 2291, 2292, 2293, 2294, 2295, 2296, 2297, 2298, 2299, 2300,
   2301, 2302, 2303, 2304, 2305, 2306, 2362, 2364, 2369, 2370, 2371, 2372, 2373, 2374,
   2375, 2376, 2381, 2385, 2386, 2387, 2388, 2389, 2390, 2391, 2402, 2403, 2417, 2433,
   2492, 2497, 2498, 2499, 2500, 2509, 2530, 2531, 2558, 2561, 2562, 2620, 2625, 2626,
   2631, 2632, 2635, 2636, 2637, 2641, 2672, 2673, 2677, 2689, 2690, 2748, 2753, 2754,
   2755, 2756, 2757, 2759, 2760, 2765, 2786, 2787, 2810, 2811, 2812, 2813, 2814, 2815,
   2817, 2876, 2879, 2881, 2882, 2883, 2884, 2893, 2901, 2902, 2914, 2915, 2946, 3008,
   3021, 3072, 3076, 3132, 3134, 3135, 3136, 3142, 3143, 3144, 3146, 3147, 3148, 3149,
   3157, 3158, 3170, 3171, 3201, 3260, 3263, 3270, 3276, 3277, 3298, 3299, 3328, 3329,
   3387, 3388, 3393, 3394, 3395, 3396, 3405, 3426, 3427, 3457, 3530, 3538, 3539, 3540,
   3542, 3633, 3636, 3637, 3638, 3639, 3640, 3641, 3642, 3654, 3655, 3656, 3657, 3658,
   3659, 3660, 3661, 3662, 3761, 3764, 3765, 3766, 3767, 3768, 3769, 3770, 3771, 3772,
   3782, 3784, 3785, 3786, 3787, 3788, 3789, 3864, 3865, 3893, 3895, 3897, 3953, 3954,
   3955, 3956, 3957, 3958, 3959, 3960, 3961, 3962, 3963, 3964, 3965, 3966, 3968, 3969,
   3970, 3971, 3972, 3974, 3975, 3981, 3982, 3983, 3984, 3985, 3986, 3987, 3988, 3989,
   3990, 3991, 3993, 3994, 3995, 3996, 3997, 3998, 3999, 4000, 4001, 4002, 4003, 4004,
   4005, 4006, 4007, 4008, 4009, 4010, 4011, 4012, 4013, 4014, 4015, 4016, 4017, 4018,
   4019, 4020, 4021, 4022, 4023, 4024, 4025, 4026, 4027, 4028, 4038, 4141, 4142, 4143,
   4144, 4146, 4147, 4148, 4149, 4150, 4151, 4153, 4154, 4157, 4158, 4184, 4185, 4190,
   4191, 4192, 4209, 4210, 4211, 4212, 4226, 4229, 4230, 4237, 4253, 4348, 4957, 4958,
   4959, 5906, 5907, 5908, 5938, 5939, 5970, 5971, 6002, 6003, 6068, 6069, 6071, 6072,
   6073, 6074, 6075, 6076, 6077, 6086, 6089, 6090, 6091, 6092, 6093, 6094, 6095, 6096,
   6097, 6098, 6099, 6103, 6109, 6155, 6156, 6157, 6158, 6159, 6211, 6277, 6278, 6313,
   6432, 6433, 6434, 6439, 6440, 6450, 6457, 6458, 6459, 6679, 6680, 6683, 6742, 6744,
   6745, 6746, 6747, 6748, 6749, 6750, 6752, 6754, 6757, 6758, 6759, 6760, 6761, 6762,
   6763, 6764, 6771, 6772, 6773, 6774, 6775, 6776, 6777, 6778, 6779, 6780, 6783, 6823,
   6832, 6833, 6834, 6835, 6836, 6837, 6838, 6839, 6840, 6841, 6842, 6843, 6844, 6845,
   6846, 6847, 6848, 6849, 6850, 6851, 6852, 6853, 6854, 6855, 6856, 6857, 6858, 6859,
   6860, 6861, 6862, 6912, 6913, 6914, 6915, 6964, 6966, 6967, 6968, 6969, 6970, 6972,
   6978, 7019, 7020, 7021, 7022, 7023, 7024, 7025, 7026, 7027, 7040, 7041, 7074, 7075,
   7076, 7077, 7080, 7081, 7083, 7084, 7085, 7142, 7144, 7145, 7149, 7151, 7152, 7153,
   7212, 7213, 7214, 7215, 7216, 7217, 7218, 7219, 7222, 7223, 7288, 7289, 7290, 7291,
   7292, 7293, 7376, 7377, 7378, 7380, 7381, 7382, 7383, 7384, 7385, 7386, 7387, 7388,
   7389, 7390, 7391, 7392, 7394, 7395, 7396, 7397, 7398, 7399, 7400, 7405, 7412, 7416,
   7417, 7468, 7469, 7470, 7471, 7472, 7473, 7474, 7475, 7476, 7477, 7478, 7479, 7480,
   7481, 7482, 7483, 7484, 7485, 7486, 7487, 7488, 7489, 7490, 7491, 7492, 7493, 7494,
   7495, 7496, 7497, 7498, 7499, 7500, 7501, 7502, 7503, 7504, 7505, 7506, 7507, 7508,
   7509, 7510, 7511, 7512, 7513, 7514, 7515, 7516, 7517, 7518, 7519, 7520, 7521, 7522,
   7523, 7524, 7525, 7526, 7527, 7528, 7529, 7530, 7544, 7579, 7580, 7581, 7582, 7583,
   7584, 7585, 7586, 7587, 7588, 7589, 7590, 7591, 7592, 7593, 7594, 7595, 7596, 7597,
   7598, 7599, 7600, 7601, 7602, 7603, 7604, 7605, 7606, 7607, 7608, 7609, 7610, 7611,
   7612, 7613, 7614, 7615, 7616, 7617, 7618, 7619, 7620, 7621, 7622, 7623, 7624, 7625,
   7626, 7627, 7628, 7629, 7630, 7631, 7632, 7633, 7634, 7635, 7636, 7637, 7638, 7639,
   7640, 7641, 7642, 7643, 7644, 7645, 7646, 7647, 7648, 7649, 7650, 7651, 7652, 7653,
   7654, 7655, 7656, 7657, 7658, 7659, 7660, 7661, 7662, 7663, 7664, 7665, 7666, 7667,
   7668, 7669, 7670, 7671, 7672, 7673, 7674, 7675, 7676, 7677, 7678, 7679, 8125, 8127,
   8128, 8129, 8141, 8142, 8143, 8157, 8158, 8159, 8173, 8174, 8175, 8189, 8190, 8203,
   8204, 8205, 8206, 8207, 8216, 8217, 8228, 8231, 8234, 8235, 8236, 8237, 8238, 8288,
   8289, 8290, 8291, 8292, 8294, 8295, 8296, 8297, 8298, 8299, 8300, 8301, 8302, 8303,
   8305, 8319, 8336, 8337, 8338, 8339, 8340, 8341, 8342, 8343, 8344, 8345, 8346, 8347,
   8348, 8400, 8401, 8402, 8403, 8404, 8405, 8406, 8407, 8408, 8409, 8410, 8411, 8412,
   8413, 8414, 8415, 8416, 8417, 8418, 8419, 8420, 8421, 8422, 8423, 8424, 8425, 8426,
   8427, 8428, 8429, 8430, 8431, 8432, 11388, 11389, 11503, 11504, 11505, 11631, 11647, 11744,
   11745, 11746, 11747, 11748, 11749, 11750, 11751, 11752, 11753, 11754, 11755, 11756, 11757, 11758,
   11759, 11760, 11761, 11762, 11763, 11764, 11765, 11766, 11767, 11768, 11769, 11770, 11771, 11772,
   11773, 11774, 11775, 11823, 12293, 12330, 12331, 12332, 12333, 12337, 12338, 12339, 12340, 12341,
   12347, 12441, 12442, 12443, 12444, 12445, 12446, 12540, 12541, 12542, 40981, 42232, 42233, 42234,
   42235, 42236, 42237, 42508, 42607, 42608, 42609, 42610, 42612, 42613, 42614, 42615, 42616, 42617,
   42618, 42619, 42620, 42621, 42623, 42652, 42653, 42654, 42655, 42736, 42737, 42752, 42753, 42754,
   42755, 42756, 42757, 42758, 42759, 42760, 42761, 42762, 42763, 42764, 42765, 42766, 42767, 42768,
   42769, 42770, 42771, 42772, 42773, 42774, 42775, 42776, 42777, 42778, 42779, 42780, 42781, 42782,
   42783, 42784, 42785, 42864, 42888, 42889, 42890, 42994, 42995, 42996, 43000, 43001, 43010, 43014,
   43019, 43045, 43046, 43052, 43204, 43205, 43232, 43233, 43234, 43235, 43236, 43237, 43238, 43239,
   43240, 43241, 43242, 43243, 43244, 43245, 43246, 43247, 43248, 43249, 43263, 43302, 43303, 43304,
   43305, 43306, 43307, 43308, 43309, 43335, 43336, 43337, 43338, 43339, 43340, 43341, 43342, 43343,
   43344, 43345, 43392, 43393, 43394, 43443, 43446, 43447, 43448, 43449, 43452, 43453, 43471, 43493,
   43494, 43561, 43562, 43563, 43564, 43565, 43566, 43569, 43570, 43573, 43574, 43587, 43596, 43632,
   43644, 43696, 43698, 43699, 43700, 43703, 43704, 43710, 43711, 43713, 43741, 43756, 43757, 43763,
   43764, 43766, 43867, 43868, 43869, 43870, 43871, 43881, 43882, 43883, 44005, 44008, 44013, 64286,
   64434, 64435, 64436, 64437, 64438, 64439, 64440, 64441, 64442, 64443, 64444, 64445, 64446, 64447,
   64448, 64449, 64450, 65024, 65025, 65026, 65027, 65028, 65029, 65030, 65031, 65032, 65033, 65034,
   65035, 65036, 65037, 65038, 65039, 65043, 65056, 65057, 65058, 65059, 65060, 65061, 65062, 65063,
   65064, 65065, 65066, 65067, 65068, 65069, 65070, 65071, 65106, 65109, 65279, 65287, 65294, 65306,
   65342, 65344, 65392, 65438, 65439, 65507, 65529, 65530, 65531, 66045, 66272, 66422, 66423, 66424,
   66425, 66426, 67456, 67457, 67458, 67459, 67460, 67461, 67463, 67464, 67465, 67466, 67467, 67468,
   67469, 67470, 67471, 67472, 67473, 67474, 67475, 67476, 67477, 67478, 67479, 67480, 67481, 67482,
   67483, 67484, 67485, 67486, 67487, 67488, 67489, 67490, 67491, 67492, 67493, 67494, 67495, 67496,
   67497, 67498, 67499, 67500, 67501, 67502, 67503, 67504, 67506, 67507, 67508, 67509, 67510, 67511,
   67512, 67513, 67514, 68097, 68098, 68099, 68101, 68102, 68108, 68109, 68110, 68111, 68152, 68153,
   68154, 68159, 68325, 68326, 68900, 68901, 68902, 68903, 69291, 69292, 69446, 69447, 69448, 69449,
   69450, 69451, 69452, 69453, 69454, 69455, 69456, 69506, 69507, 69508, 69509, 69633, 69688, 69689,
   69690, 69691, 69692, 69693, 69694, 69695, 69696, 69697, 69698, 69699, 69700, 69701, 69702, 69744,
   69747, 69748, 69759, 69760, 69761, 69811, 69812, 69813, 69814, 69817, 69818, 69821, 69826, 69837,
   69888, 69889, 69890, 69927, 69928, 69929, 69930, 69931, 69933, 69934, 69935, 69936, 69937, 69938,
   69939, 69940, 70003, 70016, 70017, 70070, 70071, 70072, 70073, 70074, 70075, 70076, 70077, 70078,
   70089, 70090, 70091, 70092, 70095, 70191, 70192, 70193, 70196, 70198, 70199, 70206, 70367, 70371,
   70372, 70373, 70374, 70375, 70376, 70377, 70378, 70400, 70401, 70459, 70460, 70464, 70502, 70503,
   70504, 70505, 70506, 70507, 70508, 70512, 70513, 70514, 70515, 70516, 70712, 70713, 70714, 70715,
   70716, 70717, 70718, 70719, 70722, 70723, 70724, 70726, 70750, 70835, 70836, 70837, 70838, 70839,
   70840, 70842, 70847, 70848, 70850, 70851, 71090, 71091, 71092, 71093, 71100, 71101, 71103, 71104,
   71132, 71133, 71219, 71220, 71221, 71222, 71223, 71224, 71225, 71226, 71229, 71231, 71232, 71339,
   71341, 71344, 71345, 71346, 71347, 71348, 71349, 71351, 71453, 71454, 71455, 71458, 71459, 71460,
   71461, 71463, 71464, 71465, 71466, 71467, 71727, 71728, 71729, 71730, 71731, 71732, 71733, 71734,
   71735, 71737, 71738, 71995, 71996, 71998, 72003, 72148, 72149, 72150, 72151, 72154, 72155, 72160,
   72193, 72194, 72195, 72196, 72197, 72198, 72199, 72200, 72201, 72202, 72243, 72244, 72245, 72246,
   72247, 72248, 72251, 72252, 72253, 72254, 72263, 72273, 72274, 72275, 72276, 72277, 72278, 72281,
   72282, 72283, 72330, 72331, 72332, 72333, 72334, 72335, 72336, 72337, 72338, 72339, 72340, 72341,
   72342, 72344, 72345, 72752, 72753, 72754, 72755, 72756, 72757, 72758, 72760, 72761, 72762, 72763,
   72764, 72765, 72767, 72850, 72851, 72852, 72853, 72854, 72855, 72856, 72857, 72858, 72859, 72860,
   72861, 72862, 72863, 72864, 72865, 72866, 72867, 72868, 72869, 72870, 72871, 72874, 72875, 72876,
   72877, 72878, 72879, 72880, 72882, 72883, 72885, 72886, 73009, 73010, 73011, 73012, 73013, 73014,
   73018, 73020, 73021, 73023, 73024, 73025, 73026, 73027, 73028, 73029, 73031, 73104, 73105, 73109,
   73111, 73459, 73460, 78896, 78897, 78898, 78899, 78900, 78901, 78902, 78903, 78904, 92912, 92913,
   92914, 92915, 92916, 92976, 92977, 92978, 92979, 92980, 92981, 92982, 92992, 92993, 92994, 92995,
   94031, 94095, 94096, 94097, 94098, 94099, 94100, 94101, 94102, 94103, 94104, 94105, 94106, 94107,
   94108, 94109, 94110, 94111, 94176, 94177, 94179, 94180, 110576, 110577, 110578, 110579, 110581, 110582,
   110583, 110584, 110585, 110586, 110587, 110589, 110590, 113821, 113822, 113824, 113825, 113826, 113827, 118528,
   118529, 118530, 118531, 118532, 118533, 118534, 118535, 118536, 118537, 118538, 118539, 118540, 118541, 118542,
   118543, 118544, 118545, 118546, 118547, 118548, 118549, 118550, 118551, 118552, 118553, 118554, 118555, 118556,
   118557, 118558, 118559, 118560, 118561, 118562, 118563, 118564, 118565, 118566, 118567, 118568, 118569, 118570,
   118571, 118572, 118573, 118576, 118577, 118578, 118579, 118580, 118581, 118582, 118583, 118584, 118585, 118586,
   118587, 118588, 118589, 118590, 118591, 118592, 118593, 118594, 118595, 118596, 118597, 118598, 119143, 119144,
   119145, 119155, 119156, 119157, 119158, 119159, 119160, 119161, 119162, 119163, 119164, 119165, 119166, 119167,
   119168, 119169, 119170, 119173, 119174, 119175, 119176, 119177, 119178, 119179, 119210, 119211, 119212, 119213,
   119362, 119363, 119364, 121344, 121345, 121346, 121347, 121348, 121349, 121350, 121351, 121352, 121353, 121354,
   121355, 121356, 121357, 121358, 121359, 121360, 121361, 121362, 121363, 121364, 121365, 121366, 121367, 121368,
   121369, 121370, 121371, 121372, 121373, 121374, 121375, 121376, 121377, 121378, 121379, 121380, 121381, 121382,
   121383, 121384, 121385, 121386, 121387, 121388, 121389, 121390, 121391, 121392, 121393, 121394, 121395, 121396,
   121397, 121398, 121403, 121404, 121405, 121406, 121407, 121408, 121409, 121410, 121411, 121412, 121413, 121414,
   121415, 121416, 121417, 121418, 121419, 121420, 121421, 121422, 121423, 121424, 121425, 121426, 121427, 121428,
   121429, 121430, 121431, 121432, 121433, 121434, 121435, 121436, 121437, 121438, 121439, 121440, 121441, 121442,
   121443, 121444, 121445, 121446, 121447, 121448, 121449, 121450, 121451, 121452, 121461, 121476, 121499, 121500,
   121501, 121502, 121503, 121505, 121506, 121507, 121508, 121509, 121510, 121511, 121512, 121513, 121514, 121515,
   121516, 121517, 121518, 121519, 122880, 122881, 122882, 122883, 122884, 122885, 122886, 122888, 122889, 122890,
   122891, 122892, 122893, 122894, 122895, 122896, 122897, 122898, 122899, 122900, 122901, 122902, 122903, 122904,
   122907, 122908, 122909, 122910, 122911, 122912, 122913, 122915, 122916, 122918, 122919, 122920, 122921, 122922,
   123184, 123185, 123186, 123187, 123188, 123189, 123190, 123191, 123192, 123193, 123194, 123195, 123196, 123197,
   123566, 123628, 123629, 123630, 123631, 125136, 125137, 125138, 125139, 125140, 125141, 125142, 125252, 125253,
   125254, 125255, 125256, 125257, 125258, 125259, 127995, 127996, 127997, 127998, 127999, 917505, 917536, 917537,
   917538, 917539, 917540, 917541, 917542, 917543, 917544, 917545, 917546, 917547, 917548, 917549, 917550, 917551,
   917552, 917553, 917554, 917555, 917556, 917557, 917558, 917559, 917560, 917561, 917562, 917563, 917564, 917565,
   917566, 917567, 917568, 917569, 917570, 917571, 917572, 917573, 917574, 917575, 917576, 917577, 917578, 917579,
   917580, 917581, 917582, 917583, 917584, 917585, 917586, 917587, 917588, 917589, 917590, 917591, 917592, 917593,
   917594, 917595, 917596, 917597, 917598, 917599, 917600, 917601, 917602, 917603, 917604, 917605, 917606, 917607,
   917608, 917609, 917610, 917611, 917612, 917613, 917614, 917615, 917616, 917617, 917618, 917619, 917620, 917621,
   917622, 917623, 917624, 917625, 917626, 917627, 917628, 917629, 917630, 917631, 917760, 917761, 917762, 917763,
   917764, 917765, 917766, 917767, 917768, 917769, 917770, 917771, 917772, 917773, 917774, 917775, 917776, 917777,
   917778, 917779, 917780, 917781, 917782, 917783, 917784, 917785, 917786, 917787, 917788, 917789, 917790, 917791,
   917792, 917793, 917794, 917795, 917796, 917797, 917798, 917799, 917800, 917801, 917802, 917803, 917804, 917805,
   917806, 917807, 917808, 917809, 917810, 917811, 917812, 917813, 917814, 917815, 917816, 917817, 917818, 917819,
   917820, 917821, 917822, 917823, 917824, 917825, 917826, 917827, 917828, 917829, 917830, 917831, 917832, 917833,
   917834, 917835, 917836, 917837, 917838, 917839, 917840, 917841, 917842, 917843, 917844, 917845, 917846, 917847,
   917848, 917849, 917850, 917851, 917852, 917853, 917854, 917855, 917856, 917857, 917858, 917859, 917860, 917861,
   917862, 917863, 917864, 917865, 917866, 917867, 917868, 917869, 917870, 917871, 917872, 917873, 917874, 917875,
   917876, 917877, 917878, 917879, 917880, 917881, 917882, 917883, 917884, 917885, 917886, 917887, 917888, 917889,
   917890, 917891, 917892, 917893, 917894, 917895, 917896, 917897, 917898, 917899, 917900, 917901, 917902, 917903,
   917904, 917905, 917906, 917907, 917908, 917909, 917910, 917911, 917912, 917913, 917914, 917915, 917916, 917917,
   917918, 917919, 917920, 917921, 917922, 917923, 917924, 917925, 917926, 917927, 917928, 917929, 917930, 917931,
   917932, 917933, 917934, 917935, 917936, 917937, 917938, 917939, 917940, 917941, 917942, 917943, 917944, 917945,
   917946, 917947, 917948, 917949, 917950, 917951, 917952, 917953, 917954, 917955, 917956, 917957, 917958, 917959,
   917960, 917961, 917962, 917963, 917964, 917965, 917966, 917967, 917968, 917969, 917970, 917971, 917972, 917973,
   917974, 917975, 917976, 917977, 917978, 917979, 917980, 917981, 917982, 917983, 917984, 917985, 917986, 917987,
   917988, 917989, 917990, 917991, 917992, 917993, 917994, 917995, 917996, 917997, 917998, 917999]

/-- Cased, for the sigma context scan. -/
def pyCased (c : Char) : Bool := pyCasedCodes.contains c.toNat

/-- Case-ignorable, for the sigma context scan. -/
def pyCaseIgnorable (c : Char) : Bool := pyCICodes.contains c.toNat

/-- The scan of CPython's `handle_capital_sigma`: skip case-ignorable
characters, then ask whether the first remaining character is cased. -/
def caseScan : List Char → Bool
  | [] => false
  | c :: r => if pyCaseIgnorable c then caseScan r else pyCased c

/-- Final-sigma test: a preceding cased character (scanning back through
case-ignorables, `before` is the reversed prefix) and no following cased
character (scanning forward through case-ignorables). -/
def sigmaFinal (before after : List Char) : Bool :=
  caseScan before && !(caseScan after)

/-- `str.lower()` over a character list; `before` is the reversed list of
characters already processed.  Capital sigma lowers to final sigma exactly
in final position; every other character lowers context-freely. -/
def pyLowerGo : List Char → List Char → List Char
  | _, [] => []
  | before, c :: after =>
      (if c = 'Σ' then (if sigmaFinal before after then ['ς'] else ['σ'])
       else pyLowerChar c) ++ pyLowerGo (c :: before) after

/-- `str.lower()`. -/
def pyLower (l : List Char) : List Char := pyLowerGo [] l

/-- Python `str.strip()`: drop leading and trailing whitespace. -/
def pyStrip (l : List Char) : List Char :=
  ((l.dropWhile pyIsWs).reverse.dropWhile pyIsWs).reverse

/-- Worker for `str.split()`: `acc` holds the current word, reversed. -/
def pySplitAux : List Char → List Char → List (List Char)
  | [], acc => if acc.isEmpty then [] else [acc.reverse]
  | c :: rest, acc =>
      if pyIsWs c then
        if acc.isEmpty then pySplitAux rest []
        else acc.reverse :: pySplitAux rest []
      else pySplitAux rest (c :: acc)

/-- Python `str.split()` with no separator: the maximal non-whitespace runs,
with no empty pieces. -/
def pySplitWs (l : List Char) : List (List Char) := pySplitAux l []

/-- Python `str.strip()` on a `String`. -/
def pyStripStr (s : String) : String := String.mk (pyStrip s.data)

/-- `PromptCache._normalize_prompt`: strip, lowercase, collapse whitespace
runs to single spaces (`" ".join(prompt.strip().lower().split())`). -/
def normalize_prompt (prompt : String) : String :=
  " ".intercalate ((pySplitWs (pyLower (pyStrip prompt.data))).map String.mk)

/-- `PromptCache._cache_key`: SHA-256 hex digest of
`f"\x7bkind\x7d:\x7blocale\x7d:\x7bnormalized\x7d"`. -/
def cache_key (kind prompt locale : String) : String :=
  sha256hex (kind ++ ":" ++ locale ++ ":" ++ normalize_prompt prompt)

/-- A row of the `prompt_cache` table (`PromptCacheEntry` in `db/models.py`);
`expires_at` is seconds on the storage clock. -/
structure PromptCacheEntry where
  cache_key : String
  kind : String
  locale : String
  prompt : String
  response_text : String
  model : String
  source : String
  tokens_in : Nat
  tokens_out : Nat
  usd_cost : ℚ
  expires_at : Nat
deriving Repr, DecidableEq

/-- `CachedResponse` dataclass returned by `PromptCache.get`. -/
structure CachedResponse where
  text : String
  model : String
  source : String
  tokens_in : Nat
  tokens_out : Nat
  usd_cost : ℚ
deriving Repr, DecidableEq

/-- `StorageService.get_cache_entry`: look up by key; an entry at or past its
expiry is deleted and reported as a miss.  Returns the result and the store
after the opportunistic delete. -/
def get_cache_entry (store : List PromptCacheEntry) (now : Nat) (key : String) :
    Option PromptCacheEntry × List PromptCacheEntry :=
  match store.find? (fun e => e.cache_key == key) with
  | none => (none, store)
  | some e =>
      if e.expires_at ≤ now then (none, store.filter (fun x => x.cache_key != key))
      else (some e, store)

/-- `StorageService.upsert_cache_entry`: overwrite the row with this key, or
append a new one; `expires_at := now + ttl_seconds`. -/
def upsert_cache_entry (store : List PromptCacheEntry) (now : Nat)
    (key kind locale prompt response_text model source : String)
    (tokens_in tokens_out : Nat) (usd_cost : ℚ) (ttl_seconds : Nat) :
    List PromptCacheEntry :=
  let expires_at := now + ttl_seconds
  if (store.find? (fun e => e.cache_key == key)).isSome then
    store.map (fun e =>
      if e.cache_key == key then
        { e with response_text := response_text, model := model, source := source,
                 tokens_in := tokens_in, tokens_out := tokens_out, usd_cost := usd_cost,
                 expires_at := expires_at, prompt := prompt, locale := locale, kind := kind }
      else e)
  else
    store ++ [⟨key, kind, locale, prompt, response_text, model, source,
               tokens_in, tokens_out, usd_cost, expires_at⟩]

/-- `PromptCache.__init__` clamps the configured TTL: `max(60, ttl_seconds)`. -/
def prompt_cache_ttl (ttl_seconds : Nat) : Nat := max 60 ttl_seconds

/-- `PromptCache.get`. -/
def cache_get (store : List PromptCacheEntry) (now : Nat)
    (kind prompt locale : String) : Option CachedResponse × List PromptCacheEntry :=
  let r := get_cache_entry store now (cache_key kind prompt locale)
  match r.1 with
  | none => (none, r.2)
  | some e =>
      (some ⟨e.response_text, e.model, e.source, e.tokens_in, e.tokens_out, e.usd_cost⟩, r.2)

/-- `PromptCache.set`: refuse to write when the trimmed response is shorter
than 60 characters, otherwise upsert with the cache's TTL. -/
def cache_set (store : List PromptCacheEntry) (now : Nat)
    (kind prompt locale response_text model source : String)
    (tokens_in tokens_out : Nat) (usd_cost : ℚ) (ttl_seconds : Nat) :
    List PromptCacheEntry :=
  if (pyStripStr response_text).length < 60 then store
  else
    upsert_cache_entry store now (cache_key kind prompt locale) kind locale prompt
      response_text model source tokens_in tokens_out usd_cost ttl_seconds

/-! ### `backend/app/ai/costs.py` — `DailyLimiter`, `UsageRecord` -/

/-- `UsageRecord` dataclass: one row of the usage log. -/
structure UsageRecord where
  model : String
  kind : String
  tokens_in : Nat
  tokens_out : Nat
  usd_cost : ℚ
  source : String
  user_id : Option Int
deriving Repr, DecidableEq

/-- The mutable fields of `DailyLimiter`; `last_refreshed` is the UTC day
ordinal of the last observation (only `.date()` comparisons occur). -/
structure LimiterState where
  soft_limit : ℚ
  hard_limit : ℚ
  today_spend : ℚ
  mode : String
  last_refreshed : Option Nat
deriving Repr, DecidableEq

/-- `DailyLimiter.__init__`: clamp the soft limit at 0, raise the hard limit
to at least the soft limit, start at zero spend in `normal` mode. -/
def mkDailyLimiter (soft_limit hard_limit : ℚ) : LimiterState :=
  { soft_limit := max 0 soft_limit
    hard_limit := max (max 0 soft_limit) hard_limit
    today_spend := 0
    mode := "normal"
    last_refreshed := none }

/-- `DailyLimiter._update_mode` (top-down, first match wins). -/
def update_mode (s : LimiterState) : LimiterState :=
  if s.today_spend ≥ s.hard_limit then { s with mode := "hard" }
  else if s.today_spend ≥ s.soft_limit then { s with mode := "soft" }
  else { s with mode := "normal" }

/-- `DailyLimiter._ensure_current_day`: reset spend and mode when the current
date differs from the date of the last observation, then record `current` as
the last observation. -/
def ensure_current_day (s : LimiterState) (current : Nat) : LimiterState :=
  match s.last_refreshed with
  | none => { s with last_refreshed := some current }
  | some d =>
      if d ≠ current then
        { s with today_spend := 0, mode := "normal", last_refreshed := some current }
      else
        { s with last_refreshed := some current }

/-- `DailyLimiter.register`. -/
def limiter_register (s : LimiterState) (now : Nat) (usd_cost : ℚ) : LimiterState :=
  let s1 := ensure_current_day s now
  update_mode { s1 with today_spend := s1.today_spend + usd_cost }

/-- `DailyLimiter.set_limits`. -/
def limiter_set_limits (s : LimiterState) (now : Nat) (soft_limit hard_limit : ℚ) :
    LimiterState :=
  let s1 := ensure_current_day s now
  let soft := max 0 soft_limit
  update_mode { s1 with soft_limit := soft, hard_limit := max soft hard_limit }

/-- The `DailyLimiter.mode` property (reconciles the day first). -/
def limiter_mode (s : LimiterState) (now : Nat) : String :=
  (ensure_current_day s now).mode

/-- The `DailyLimiter.today_spend` property (reconciles the day first). -/
def limiter_today_spend (s : LimiterState) (now : Nat) : ℚ :=
  (ensure_current_day s now).today_spend

/-! ### `backend/app/ai/templates.py` -/

/-- `TEMPLATE_MAP`, an association list mirroring the nested dict. -/
def TEMPLATE_MAP : List (String × List (String × List String)) :=
  [("quick_tip",
    [("ru",
      ["Я рядом. Сначала выдох — медленно, чтобы плечи опустились.",
       "Давай по шагу: почувствуй стопы на полу, затем мягкий вдох на четыре."]),
     ("en",
      ["I'm here. First, let the breath out softly until your shoulders settle.",
       "One step at a time: notice your feet grounded, then a gentle four-count inhale."])]),
   ("breathing_hint",
    [("ru",
      ["Хочешь — сделаем цикл дыхания вместе: 1∕3 вдох, 2∕3 пауза, 3∕3 выдох.",
       "Три мягких круга: вдох 4, удержание 2, длинный выдох 6 — с закрытыми глазами."]),
     ("en",
      ["Let's take one soft cycle: 1⁄3 inhale, 2⁄3 pause, 3⁄3 exhale all the way out.",
       "Try three gentle rounds: inhale 4, hold 2, exhale 6 with your eyes resting closed."])]),
   ("mood_reply",
    [("ru",
      ["Отмечаю с тобой это чувство. Дышим мягко и оставляем его как маленький снимок.",
       "Спасибо, что поделился. Сохраняю мысль как камешек внимания и остаюсь рядом."]),
     ("en",
      ["I notice this feeling with you. Breathe softly and keep it as a tiny snapshot.",
       "Thank you for sharing. I keep it like a small stone of attention and stay close."])]),
   ("fallback",
    [("ru",
      ["Я рядом. Если нужно — тихо повторим дыхание и зафиксируем ощущение."]),
     ("en",
      ["I'm here. We can repeat the quiet breath and note the feeling whenever you like."])])]

/-- `dict.get`. -/
def assocGet {α : Type} (m : List (String × α)) (k : String) : Option α :=
  (m.find? (fun p => p.1 == k)).map (fun p => p.2)

/-- Python `a or b` where `a` is a list-valued `dict.get` result: `None` and
the empty list are falsy. -/
def pyOrList (a : Option (List String)) (b : List String) : List String :=
  match a with
  | some l => if l.isEmpty then b else l
  | none => b

/-- Python `TEMPLATE_MAP.get(kind) or TEMPLATE_MAP.get("fallback", \x7b\x7d)`:
`None` and the empty dict are falsy. -/
def pyOrDict (a : Option (List (String × List String)))
    (b : List (String × List String)) : List (String × List String) :=
  match a with
  | some d => if d.isEmpty then b else d
  | none => b

/-- The locale normalization `locale if locale in ("ru", "en") else "ru"`,
as it appears both in `AIRouter.ask` and in `choose_template`. -/
def locale_fallback (locale : String) : String :=
  if locale = "ru" ∨ locale = "en" then locale else "ru"

/-- `choose_template`: options for the normalized locale, else `ru`, else a
generic phrase; the first option is returned. -/
def choose_template (kind : String) (locale : String) : String :=
  let locale_norm := locale_fallback locale
  let entries := pyOrDict (assocGet TEMPLATE_MAP kind)
    ((assocGet TEMPLATE_MAP "fallback").getD [])
  let options := pyOrList (assocGet entries locale_norm)
    (pyOrList (assocGet entries "ru") ["SoznAi рядом."])
  options.headD ""

/-! ### `backend/app/ai/local_llm.py` -/

/-- `generate_local_response`: the deterministic offline responder. -/
def generate_local_response (kind : String) (prompt : String) (locale : String) : String :=
  if kind = "breathing_hint" ∨ kind = "quick_tip" then
    if locale = "ru" then
      "Сначала выдох. Давай мягко пройдём цикл дыхания: 1∕3 вдох, 2∕3 пауза, 3∕3 выдох. Три круга."
    else
      "First, exhale. Move through a breath cycle: 1⁄3 inhale, 2⁄3 pause, 3⁄3 exhale. Three calm rounds."
  else if kind = "weekly_review" then
    if locale = "ru" then
      "Сохраним наблюдения как серию снимков и мягко подведём итоги завтра."
    else
      "We'll keep these notes as gentle snapshots and reflect together tomorrow."
  else if kind = "deep_insight" then
    if locale = "ru" then
      "Запиши одну тёплую мысль, что поддерживает сейчас. Затем снова мягкий вдох."
    else
      "Write a warm note of what holds you now, then return to a soft breath."
  else
    if locale = "ru" then
      "Я рядом. Сначала выдох, затем один спокойный шаг вперёд."
    else
      "I'm here. Start with an exhale, then a single gentle step forward."

/-! ### `backend/app/ai/router.py` — `AIRouter` -/

/-- `AIResponse` dataclass. -/
structure AIResponse where
  text : String
  source : String
  model : String
  tokens_in : Nat
  tokens_out : Nat
  usd_cost : ℚ
  cached : Bool := false
deriving Repr, DecidableEq

/-- Modelled from the spec: `HardLimitExceeded` is the distinguished
budget-exhausted error the budget gate raises.  `router.py` imports it from
`costs.py`, where its class definition is absent from the sources; only its
role as a distinguished exception type is needed here. -/
inductive AskError where
  | hardLimitExceeded (msg : String)
deriving Repr, DecidableEq

/-- The router's configuration captured at construction from `Settings`,
plus the prompt cache's TTL field.  `openai_api_key = ""` models an absent
credential (Python truthiness of the key string). -/
structure RouterConfig where
  mode : String
  primary_model : String
  deep_model : String
  max_tokens_quick : Nat
  max_tokens_deep : Nat
  openai_api_key : String
  cache_ttl_seconds : Nat
deriving Repr, DecidableEq

/-- Per-call environment: the limiter clock's current UTC day, the storage
clock (seconds, for cache expiry), and the outcome the provider client's
`complete` would produce — `.error` models a raised exception,
`.ok (text, tokens_in, tokens_out, cost)` a successful completion. -/
structure AskEnv where
  nowDay : Nat
  cacheNow : Nat
  oracle : Except Unit (String × Nat × Nat × ℚ)
deriving Repr

/-- Everything observable about one `AIRouter.ask` call: the returned
response or raised error, the usage rows written (in order), the final
limiter state and cache store, and a trace of generator/provider
invocations. -/
structure AskResult where
  result : Except AskError AIResponse
  usage : List UsageRecord
  limiter : LimiterState
  store : List PromptCacheEntry
  events : List String
deriving Repr

/-- `AIRouter._base_route_for_kind`. -/
def base_route_for_kind (kind : String) : String :=
  if kind = "quick_tip" ∨ kind = "breathing_hint" then "template"
  else if kind = "mood_reply" then "mini"
  else if kind = "deep_insight" ∨ kind = "weekly_review" then "turbo"
  else "mini"

/-- `AIRouter._select_route`. -/
def select_route (forced : String) (openai_api_key : String)
    (kind limiter_mode : String) : String :=
  let base := base_route_for_kind kind
  if forced = "local_only" then "local"
  else
    let base := if forced = "mini_only" then "mini"
      else if forced = "turbo_only" then "turbo" else base
    if limiter_mode = "hard" then "local"
    else
      let base := if limiter_mode = "soft" ∧ base = "turbo" then "mini" else base
      let base := if base = "turbo" ∧ openai_api_key = "" then "mini" else base
      if (base = "mini" ∨ base = "turbo") ∧ openai_api_key = "" then "local" else base

/-- `AIRouter.ask`.  Effects are made explicit: the usage rows written by
`UsageTracker.record_cache_hit` / `record_zero_cost` / `record`, the limiter
mutation (`record` calls `DailyLimiter.register`; the `mode` property calls
`_ensure_current_day`), the cache-store mutation, and an event trace naming
each generator or provider invocation. -/
def ask (cfg : RouterConfig) (lim : LimiterState) (store : List PromptCacheEntry)
    (env : AskEnv) (user_id : Option Int) (kind text : String)
    (locale : String) (use_cache : Bool) : AskResult :=
  let locale_norm := locale_fallback locale
  let probe := if use_cache then cache_get store env.cacheNow kind text locale_norm
    else (none, store)
  match probe.1 with
  | some cached =>
      { result := .ok ⟨cached.text, "cache", cached.model,
                       cached.tokens_in, cached.tokens_out, 0, true⟩
        usage := [⟨cached.model, kind, 0, 0, 0, "cache", user_id⟩]
        limiter := lim
        store := probe.2
        events := [] }
  | none =>
    let lim1 := ensure_current_day lim env.nowDay
    if lim1.mode = "hard" then
      { result := .error (.hardLimitExceeded
          "Дневной лимит ИИ исчерпан. Попробуйте снова завтра.")
        usage := []
        limiter := lim1
        store := probe.2
        events := [] }
    else
      let route := select_route cfg.mode cfg.openai_api_key kind lim1.mode
      if route = "template" then
        { result := .ok ⟨choose_template kind locale_norm, "template", "template", 0, 0, 0, false⟩
          usage := [⟨"template", kind, 0, 0, 0, "template", user_id⟩]
          limiter := lim1
          store := probe.2
          events := ["choose_template"] }
      else if route = "local" then
        { result := .ok ⟨generate_local_response kind text locale_norm, "local", "local", 0, 0, 0, false⟩
          usage := [⟨"local", kind, 0, 0, 0, "local", user_id⟩]
          limiter := lim1
          store := probe.2
          events := ["generate_local_response"] }
      else
        let model := if route = "mini" then cfg.primary_model else cfg.deep_model
        match env.oracle with
        | .error _ =>
            { result := .ok ⟨generate_local_response kind text locale_norm, "local", "local", 0, 0, 0, false⟩
              usage := [⟨"local", kind, 0, 0, 0, "local", user_id⟩]
              limiter := lim1
              store := probe.2
              events := ["openai.complete", "generate_local_response"] }
        | .ok (response_text, tokens_in, tokens_out, cost) =>
            let lim2 := limiter_register lim1 env.nowDay cost
            let final_text := if pyStripStr response_text = "" then
                generate_local_response kind text locale_norm
              else pyStripStr response_text
            { result := .ok ⟨final_text, route, model, tokens_in, tokens_out, cost, false⟩
              usage := [⟨model, kind, tokens_in, tokens_out, cost, route, user_id⟩]
              limiter := lim2
              store := cache_set probe.2 env.cacheNow kind text locale_norm final_text
                model route tokens_in tokens_out cost cfg.cache_ttl_seconds
              events := "openai.complete" ::
                (if pyStripStr response_text = "" then ["generate_local_response"] else []) }

/-! ### The spec's layered route resolution, stated from the spec's words
(for comparison with `AIRouter._select_route`). -/

/-- The spec's kind-based baseline, used when the forced mode is `auto`:
`quick_tip`/`breathing_hint` → template; `mood_reply` → low-cost tier;
`deep_insight`/`weekly_review` → high-cost tier; any other kind → low-cost
tier. -/
def spec_kind_baseline (kind : String) : String :=
  if kind = "quick_tip" ∨ kind = "breathing_hint" then "template"
  else if kind = "mood_reply" then "mini"
  else if kind = "deep_insight" ∨ kind = "weekly_review" then "turbo"
  else "mini"

/-- The spec's layered resolution: forced `local_only` yields `local`
unconditionally; `mini_only`/`turbo_only` set the baseline to the low/high
cost tier, `auto` uses the kind baseline; limiter mode `soft` downgrades a
high-cost baseline to low-cost; with no provider credential, high-cost
downgrades to low-cost and a low-cost route downgrades to `local`. -/
def spec_route (forced : String) (hasCredential : Bool)
    (kind limiter_mode : String) : String :=
  if forced = "local_only" then "local"
  else
    let baseline :=
      if forced = "mini_only" then "mini"
      else if forced = "turbo_only" then "turbo"
      else spec_kind_baseline kind
    let baseline := if limiter_mode = "soft" ∧ baseline = "turbo" then "mini" else baseline
    let baseline := if hasCredential = false ∧ baseline = "turbo" then "mini" else baseline
    if hasCredential = false ∧ baseline = "mini" then "local" else baseline

/-- A router configuration with a credential, for concrete runs. -/
def cfgW : RouterConfig := ⟨"auto", "m1", "m2", 64, 128, "sk", 600⟩

/-- A fresh limiter with soft limit 1 and hard limit 2. -/
def limW : LimiterState := mkDailyLimiter 1 2

/-- A limiter already at spend 5 in `hard` mode, observed on day 0. -/
def limW_hard : LimiterState := ⟨1, 2, 5, "hard", some 0⟩

/-- An environment where the provider raises. -/
def envW_fail : AskEnv := ⟨0, 0, .error ()⟩

/-- An unexpired cache row for `(deep_insight, en, "explain")`. -/
def entryW : PromptCacheEntry :=
  ⟨cache_key "deep_insight" "explain" "en", "deep_insight", "en", "explain",
   "resp", "m", "mini", 1, 2, 1, 100⟩

/-! ### Sanity lemmas -/

/-- The SHA-256 embedding reproduces the FIPS 180-4 test vector for the
empty message. -/
theorem sha256hex_empty_vector :
    sha256hex "" = "e3b0c44298fc1c149afbf4c8996fb92427ae41e4649b934ca495991b7852b855" := by
  rfl

/-- The SHA-256 embedding reproduces the FIPS 180-4 test vector for "abc". -/
theorem sha256hex_abc_vector :
    sha256hex "abc" = "ba7816bf8f01cfea414140de5dae2223b00361a396177a9cb410ff61f20015ad" := by
  rfl

/-- `_base_route_for_kind` only ever answers `template`, `mini` or `turbo`. -/
theorem base_route_mem (kind : String) :
    base_route_for_kind kind = "template" ∨ base_route_for_kind kind = "mini" ∨
    base_route_for_kind kind = "turbo" := by
  unfold base_route_for_kind
  split_ifs <;> simp

/-- `_select_route` never answers `cache`. -/
theorem select_route_ne_cache (forced key kind m : String) :
    select_route forced key kind m ≠ "cache" := by
  have hb := base_route_mem kind
  unfold select_route
  by_cases h1 : forced = "local_only" <;>
    by_cases h2 : forced = "mini_only" <;>
      by_cases h3 : forced = "turbo_only" <;>
        by_cases h4 : m = "hard" <;>
          by_cases h5 : m = "soft" <;>
            by_cases h6 : key = "" <;>
              rcases hb with hb | hb | hb <;>
                simp [h1, h2, h3, h4, h5, h6, hb]

/-- `_select_route` only ever answers one of the four generator names. -/
theorem select_route_mem (forced key kind m : String) :
    select_route forced key kind m = "template" ∨ select_route forced key kind m = "local" ∨
    select_route forced key kind m = "mini" ∨ select_route forced key kind m = "turbo" := by
  have hb := base_route_mem kind
  unfold select_route
  by_cases h1 : forced = "local_only" <;>
    by_cases h2 : forced = "mini_only" <;>
      by_cases h3 : forced = "turbo_only" <;>
        by_cases h4 : m = "hard" <;>
          by_cases h5 : m = "soft" <;>
            by_cases h6 : key = "" <;>
              rcases hb with hb | hb | hb <;>
                simp [h1, h2, h3, h4, h5, h6, hb]

/-- `generate_local_response` always returns non-empty text. -/
theorem generate_local_response_ne_empty (kind prompt locale : String) :
    generate_local_response kind prompt locale ≠ "" := by
  unfold generate_local_response
  split_ifs <;> decide

/-! ### Branch characterizations of `ask` -/

/-- `ask`, cache-probe hit branch. -/
theorem ask_probe_hit (cfg : RouterConfig) (lim : LimiterState)
    (store : List PromptCacheEntry) (env : AskEnv) (uid : Option Int)
    (kind text locale : String) (uc : Bool) (c : CachedResponse)
    (hc : (if uc then cache_get store env.cacheNow kind text (locale_fallback locale)
        else (none, store)).1 = some c) :
    ask cfg lim store env uid kind text locale uc =
      { result := .ok ⟨c.text, "cache", c.model, c.tokens_in, c.tokens_out, 0, true⟩
        usage := [⟨c.model, kind, 0, 0, 0, "cache", uid⟩]
        limiter := lim
        store := (if uc then cache_get store env.cacheNow kind text (locale_fallback locale)
          else (none, store)).2
        events := [] } := by
  unfold ask
  simp only [hc]

/-- `ask`, budget-gate denial branch. -/
theorem ask_probe_miss_hard (cfg : RouterConfig) (lim : LimiterState)
    (store : List PromptCacheEntry) (env : AskEnv) (uid : Option Int)
    (kind text locale : String) (uc : Bool)
    (hm : (if uc then cache_get store env.cacheNow kind text (locale_fallback locale)
        else (none, store)).1 = none)
    (hh : (ensure_current_day lim env.nowDay).mode = "hard") :
    ask cfg lim store env uid kind text locale uc =
      { result := .error (.hardLimitExceeded
          "Дневной лимит ИИ исчерпан. Попробуйте снова завтра.")
        usage := []
        limiter := ensure_current_day lim env.nowDay
        store := (if uc then cache_get store env.cacheNow kind text (locale_fallback locale)
          else (none, store)).2
        events := [] } := by
  unfold ask
  simp only [hm]
  rw [if_pos hh]

/-- `ask`, template branch. -/
theorem ask_template_route (cfg : RouterConfig) (lim : LimiterState)
    (store : List PromptCacheEntry) (env : AskEnv) (uid : Option Int)
    (kind text locale : String) (uc : Bool)
    (hm : (if uc then cache_get store env.cacheNow kind text (locale_fallback locale)
        else (none, store)).1 = none)
    (hh : ¬(ensure_current_day lim env.nowDay).mode = "hard")
    (hr : select_route cfg.mode cfg.openai_api_key kind
        (ensure_current_day lim env.nowDay).mode = "template") :
    ask cfg lim store env uid kind text locale uc =
      { result := .ok ⟨choose_template kind (locale_fallback locale),
          "template", "template", 0, 0, 0, false⟩
        usage := [⟨"template", kind, 0, 0, 0, "template", uid⟩]
        limiter := ensure_current_day lim env.nowDay
        store := (if uc then cache_get store env.cacheNow kind text (locale_fallback locale)
          else (none, store)).2
        events := ["choose_template"] } := by
  unfold ask
  simp only [hm]
  rw [if_neg hh]
  simp only [hr]
  simp

/-- `ask`, local branch. -/
theorem ask_local_route (cfg : RouterConfig) (lim : LimiterState)
    (store : List PromptCacheEntry) (env : AskEnv) (uid : Option Int)
    (kind text locale : String) (uc : Bool)
    (hm : (if uc then cache_get store env.cacheNow kind text (locale_fallback locale)
        else (none, store)).1 = none)
    (hh : ¬(ensure_current_day lim env.nowDay).mode = "hard")
    (hr : select_route cfg.mode cfg.openai_api_key kind
        (ensure_current_day lim env.nowDay).mode = "local") :
    ask cfg lim store env uid kind text locale uc =
      { result := .ok ⟨generate_local_response kind text (locale_fallback locale),
          "local", "local", 0, 0, 0, false⟩
        usage := [⟨"local", kind, 0, 0, 0, "local", uid⟩]
        limiter := ensure_current_day lim env.nowDay
        store := (if uc then cache_get store env.cacheNow kind text (locale_fallback locale)
          else (none, store)).2
        events := ["generate_local_response"] } := by
  unfold ask
  simp only [hm]
  rw [if_neg hh]
  simp only [hr]
  simp

/-- `ask`, paid route with the provider raising. -/
theorem ask_paid_error (cfg : RouterConfig) (lim : LimiterState)
    (store : List PromptCacheEntry) (env : AskEnv) (uid : Option Int)
    (kind text locale : String) (uc : Bool) (route : String) (u : Unit)
    (hm : (if uc then cache_get store env.cacheNow kind text (locale_fallback locale)
        else (none, store)).1 = none)
    (hh : ¬(ensure_current_day lim env.nowDay).mode = "hard")
    (hr : select_route cfg.mode cfg.openai_api_key kind
        (ensure_current_day lim env.nowDay).mode = route)
    (hro : route = "mini" ∨ route = "turbo")
    (ho : env.oracle = .error u) :
    ask cfg lim store env uid kind text locale uc =
      { result := .ok ⟨generate_local_response kind text (locale_fallback locale),
          "local", "local", 0, 0, 0, false⟩
        usage := [⟨"local", kind, 0, 0, 0, "local", uid⟩]
        limiter := ensure_current_day lim env.nowDay
        store := (if uc then cache_get store env.cacheNow kind text (locale_fallback locale)
          else (none, store)).2
        events := ["openai.complete", "generate_local_response"] } := by
  unfold ask
  simp only [hm]
  rw [if_neg hh]
  rcases hro with rfl | rfl <;> simp only [hr] <;> simp [ho]

/-- `ask`, paid route with the provider succeeding. -/
theorem ask_paid_ok (cfg : RouterConfig) (lim : LimiterState)
    (store : List PromptCacheEntry) (env : AskEnv) (uid : Option Int)
    (kind text locale : String) (uc : Bool) (route rt : String)
    (tin tout : Nat) (cost : ℚ)
    (hm : (if uc then cache_get store env.cacheNow kind text (locale_fallback locale)
        else (none, store)).1 = none)
    (hh : ¬(ensure_current_day lim env.nowDay).mode = "hard")
    (hr : select_route cfg.mode cfg.openai_api_key kind
        (ensure_current_day lim env.nowDay).mode = route)
    (hro : route = "mini" ∨ route = "turbo")
    (ho : env.oracle = .ok (rt, tin, tout, cost)) :
    ask cfg lim store env uid kind text locale uc =
      { result := .ok ⟨(if pyStripStr rt = "" then
            generate_local_response kind text (locale_fallback locale)
          else pyStripStr rt), route,
          (if route = "mini" then cfg.primary_model else cfg.deep_model),
          tin, tout, cost, false⟩
        usage := [⟨(if route = "mini" then cfg.primary_model else cfg.deep_model),
          kind, tin, tout, cost, route, uid⟩]
        limiter := limiter_register (ensure_current_day lim env.nowDay) env.nowDay cost
        store := cache_set
          ((if uc then cache_get store env.cacheNow kind text (locale_fallback locale)
            else (none, store)).2)
          env.cacheNow kind text (locale_fallback locale)
          (if pyStripStr rt = "" then
            generate_local_response kind text (locale_fallback locale)
          else pyStripStr rt)
          (if route = "mini" then cfg.primary_model else cfg.deep_model)
          route tin tout cost cfg.cache_ttl_seconds
        events := "openai.complete" ::
          (if pyStripStr rt = "" then ["generate_local_response"] else []) } := by
  unfold ask
  simp only [hm]
  rw [if_neg hh]
  rcases hro with rfl | rfl <;> simp only [hr] <;> simp [ho]

/-! ### The claims -/

/-- C5: for every limiter state with `hard_limit ≥ soft_limit ≥ 0` and
every same-day spend, the mode derived by `DailyLimiter._update_mode` is
`hard` iff spend ≥ hard limit, `soft` iff soft limit ≤ spend < hard limit,
and `normal` otherwise (evaluated top-down, first match wins). -/
theorem C5_mode_ordering (s : LimiterState)
    (h0 : 0 ≤ s.soft_limit) (h1 : s.soft_limit ≤ s.hard_limit) :
    ((update_mode s).mode = "hard" ↔ s.hard_limit ≤ s.today_spend) ∧
    ((update_mode s).mode = "soft" ↔
      s.soft_limit ≤ s.today_spend ∧ s.today_spend < s.hard_limit) ∧
    ((update_mode s).mode = "normal" ↔ s.today_spend < s.soft_limit) := by
  unfold update_mode
  split_ifs with hh hs
  · refine ⟨by simpa using hh, ?_, ?_⟩ <;> simp <;> intros <;> linarith
  · refine ⟨?_, ?_, ?_⟩ <;> simp <;> first
      | (intros; linarith)
      | (constructor <;> intros <;> simp_all <;> linarith)
  · refine ⟨?_, ?_, ?_⟩ <;> simp <;> first
      | (intros; linarith)
      | (constructor <;> intros <;> simp_all <;> linarith)

/-- Witness for C5 at a concrete state. -/
theorem C5_mode_ordering_witness :
    (update_mode ⟨1, 2, 3, "normal", none⟩).mode = "hard" ↔ (2 : ℚ) ≤ 3 :=
  (C5_mode_ordering ⟨1, 2, 3, "normal", none⟩ (by norm_num) (by norm_num)).1

/-- C6: a limiter driven into `hard` mode reports `normal` mode and zero
spend through its `mode` / `today_spend` accessors as soon as the current
UTC date differs from the date of the last observation, with no
intervening `register` or `refresh` call: both accessors run
`_ensure_current_day` before returning. -/
theorem C6_day_rollover (s : LimiterState) (d now : Nat)
    (hmode : s.mode = "hard") (hlast : s.last_refreshed = some d)
    (hne : d ≠ now) :
    limiter_mode s now = "normal" ∧ limiter_today_spend s now = 0 := by
  unfold limiter_mode limiter_today_spend ensure_current_day
  rw [hlast]
  simp [hne]

/-- Witness for C6 at a concrete state and clock. -/
theorem C6_day_rollover_witness :
    limiter_mode ⟨1, 2, 5, "hard", some 10⟩ 11 = "normal" ∧
    limiter_today_spend ⟨1, 2, 5, "hard", some 10⟩ 11 = 0 :=
  C6_day_rollover ⟨1, 2, 5, "hard", some 10⟩ 10 11 rfl rfl (by decide)

/-- C4: for every kind, forced router mode, limiter mode in
normal/soft, and credential presence, `AIRouter._select_route` computes
exactly the spec's layered resolution `spec_route` (forced `local_only`
wins unconditionally; `mini_only`/`turbo_only` replace the kind baseline;
`soft` downgrades `turbo` to `mini`; a missing credential downgrades
`turbo` to `mini` and `mini` to `local`). -/
theorem C4_route_resolution (forced key kind m : String)
    (hf : forced = "auto" ∨ forced = "mini_only" ∨ forced = "turbo_only" ∨
      forced = "local_only")
    (hm : m = "normal" ∨ m = "soft") :
    select_route forced key kind m = spec_route forced (key != "") kind m := by
  have hb := base_route_mem kind
  have hbs : spec_kind_baseline kind = base_route_for_kind kind := rfl
  unfold select_route spec_route
  rcases hm with rfl | rfl <;> rcases hf with rfl | rfl | rfl | rfl <;>
    by_cases hk : key = "" <;>
      rcases hb with hb | hb | hb <;>
        simp [hbs, hb, hk, bne]

/-- Witness for C4 at a concrete input: `deep_insight` under `auto` with a
soft budget and no credential. -/
theorem C4_route_resolution_witness :
    select_route "auto" "" "deep_insight" "soft" =
      spec_route "auto" ("" != "") "deep_insight" "soft" :=
  C4_route_resolution "auto" "" "deep_insight" "soft" (Or.inl rfl) (Or.inr rfl)

/-- C10: for every locale outside ru/en, `AIRouter.ask` behaves identically
to the same call with locale `ru`: the fallback locale is fixed to `ru`
(the fingerprint, template choice and local-generator text all go through
`locale_fallback`). -/
theorem C10_locale_fallback (cfg : RouterConfig) (lim : LimiterState)
    (store : List PromptCacheEntry) (env : AskEnv) (uid : Option Int)
    (kind text locale : String) (uc : Bool)
    (h1 : locale ≠ "ru") (h2 : locale ≠ "en") :
    ask cfg lim store env uid kind text locale uc =
      ask cfg lim store env uid kind text "ru" uc := by
  have h : locale_fallback locale = locale_fallback "ru" := by
    simp [locale_fallback, h1, h2]
  unfold ask
  rw [h]

/-- Witness for C10 at a concrete locale outside ru/en. -/
theorem C10_locale_fallback_witness :
    ask ⟨"auto", "m1", "m2", 1, 2, "k", 600⟩ (mkDailyLimiter 1 2) [] ⟨0, 0, .error ()⟩
        none "mood_reply" "hi" "de" true =
      ask ⟨"auto", "m1", "m2", 1, 2, "k", 600⟩ (mkDailyLimiter 1 2) [] ⟨0, 0, .error ()⟩
        none "mood_reply" "hi" "ru" true :=
  C10_locale_fallback ⟨"auto", "m1", "m2", 1, 2, "k", 600⟩ (mkDailyLimiter 1 2) []
    ⟨0, 0, .error ()⟩ none "mood_reply" "hi" "de" true (by decide) (by decide)

/-- C8: `PromptCache.set` with a response whose trimmed length is below 60
leaves the store untouched (so a `get` for the same key still answers as
before), and consequently the invariant that every stored entry has trimmed
response length at least 60 is preserved by every `set`. -/
theorem C8_length_guard :
    (∀ (store : List PromptCacheEntry) (now : Nat)
        (kind prompt locale rt model source : String) (tin tout : Nat)
        (cost : ℚ) (ttl : Nat), (pyStripStr rt).length < 60 →
      cache_set store now kind prompt locale rt model source tin tout cost ttl = store) ∧
    (∀ (store : List PromptCacheEntry) (now : Nat)
        (kind prompt locale rt model source : String) (tin tout : Nat)
        (cost : ℚ) (ttl : Nat),
      (∀ e ∈ store, 60 ≤ (pyStripStr e.response_text).length) →
      ∀ e ∈ cache_set store now kind prompt locale rt model source tin tout cost ttl,
        60 ≤ (pyStripStr e.response_text).length) := by
  constructor
  · intro store now kind prompt locale rt model source tin tout cost ttl hshort
    unfold cache_set
    rw [if_pos hshort]
  · intro store now kind prompt locale rt model source tin tout cost ttl hinv e he
    unfold cache_set at he
    split_ifs at he with hshort
    · exact hinv e he
    · have hlong : 60 ≤ (pyStripStr rt).length := Nat.le_of_not_lt hshort
      unfold upsert_cache_entry at he
      split_ifs at he
      · rcases List.mem_map.mp he with ⟨e0, he0, heq⟩
        by_cases hk : e0.cache_key == cache_key kind prompt locale
        · rw [if_pos hk] at heq
          subst heq
          simpa using hlong
        · rw [if_neg hk] at heq
          subst heq
          exact hinv e0 he0
      · rcases List.mem_append.mp he with h | h
        · exact hinv e h
        · rcases List.mem_singleton.mp h with rfl
          simpa using hlong

/-- Witness for C8: a 10-character response is not written to an empty
store, and the length invariant holds of the empty store. -/
theorem C8_length_guard_witness :
    cache_set [] 0 "mood_reply" "p" "ru" "short text" "m" "mini" 1 1 0 600 = [] :=
  C8_length_guard.1 [] 0 "mood_reply" "p" "ru" "short text" "m" "mini" 1 1 0 600
    (by decide)

/-- C1: whenever the paid-provider `complete` call raises (the pipeline
having reached a paid route: cache probe did not hit and the reconciled
limiter mode is not `hard`), `ask` propagates no error: it answers with the
local deterministic generator's text, `source = "local"`,
`model = "local"`, zero cost, non-empty text, and writes exactly one
zero-cost usage record. -/
theorem C1_provider_failure_fallback (cfg : RouterConfig) (lim : LimiterState)
    (store : List PromptCacheEntry) (env : AskEnv) (uid : Option Int)
    (kind text locale : String) (uc : Bool)
    (hmiss : uc = false ∨
      (cache_get store env.cacheNow kind text (locale_fallback locale)).1 = none)
    (hsoft : ¬(ensure_current_day lim env.nowDay).mode = "hard")
    (hroute : select_route cfg.mode cfg.openai_api_key kind
        (ensure_current_day lim env.nowDay).mode = "mini" ∨
      select_route cfg.mode cfg.openai_api_key kind
        (ensure_current_day lim env.nowDay).mode = "turbo")
    (hfail : env.oracle = .error ()) :
    (ask cfg lim store env uid kind text locale uc).result =
      .ok ⟨generate_local_response kind text (locale_fallback locale),
        "local", "local", 0, 0, 0, false⟩ ∧
    generate_local_response kind text (locale_fallback locale) ≠ "" ∧
    (ask cfg lim store env uid kind text locale uc).usage =
      [⟨"local", kind, 0, 0, 0, "local", uid⟩] := by
  have hm : (if uc then cache_get store env.cacheNow kind text (locale_fallback locale)
      else (none, store)).1 = none := by
    rcases hmiss with rfl | h
    · simp
    · cases uc <;> simp [h]
  rcases hroute with hr | hr
  · rw [ask_paid_error cfg lim store env uid kind text locale uc "mini" () hm hsoft hr
      (Or.inl rfl) hfail]
    exact ⟨rfl, generate_local_response_ne_empty _ _ _, rfl⟩
  · rw [ask_paid_error cfg lim store env uid kind text locale uc "turbo" () hm hsoft hr
      (Or.inr rfl) hfail]
    exact ⟨rfl, generate_local_response_ne_empty _ _ _, rfl⟩

/-- Witness for C1: a `mood_reply` request against an empty store with a
failing provider. -/
theorem C1_provider_failure_fallback_witness :
    (ask cfgW limW [] envW_fail (some 1) "mood_reply" "hi" "en" true).result =
      .ok ⟨generate_local_response "mood_reply" "hi" (locale_fallback "en"),
        "local", "local", 0, 0, 0, false⟩ ∧
    generate_local_response "mood_reply" "hi" (locale_fallback "en") ≠ "" ∧
    (ask cfgW limW [] envW_fail (some 1) "mood_reply" "hi" "en" true).usage =
      [⟨"local", "mood_reply", 0, 0, 0, "local", some 1⟩] :=
  C1_provider_failure_fallback cfgW limW [] envW_fail (some 1) "mood_reply" "hi" "en" true
    (Or.inr (by decide)) (by decide) (Or.inl (by decide)) rfl

/-- C2: when the cache probe does not hit (cache disabled or a miss) and
the reconciled limiter mode is `hard`, `ask` fails with the distinguished
budget-exhausted error before invoking any generator, and writes no usage
record. -/
theorem C2_hard_budget_denial (cfg : RouterConfig) (lim : LimiterState)
    (store : List PromptCacheEntry) (env : AskEnv) (uid : Option Int)
    (kind text locale : String) (uc : Bool)
    (hmiss : uc = false ∨
      (cache_get store env.cacheNow kind text (locale_fallback locale)).1 = none)
    (hhard : (ensure_current_day lim env.nowDay).mode = "hard") :
    (ask cfg lim store env uid kind text locale uc).result =
      .error (.hardLimitExceeded "Дневной лимит ИИ исчерпан. Попробуйте снова завтра.") ∧
    (ask cfg lim store env uid kind text locale uc).usage = [] ∧
    (ask cfg lim store env uid kind text locale uc).events = [] := by
  have hm : (if uc then cache_get store env.cacheNow kind text (locale_fallback locale)
      else (none, store)).1 = none := by
    rcases hmiss with rfl | h
    · simp
    · cases uc <;> simp [h]
  rw [ask_probe_miss_hard cfg lim store env uid kind text locale uc hm hhard]
  exact ⟨rfl, rfl, rfl⟩

/-- Witness for C2: a limiter at spend 5 against limits (1, 2) on the same
day denies the request. -/
theorem C2_hard_budget_denial_witness :
    (ask cfgW limW_hard [] envW_fail none "mood_reply" "hi" "ru" false).result =
      .error (.hardLimitExceeded "Дневной лимит ИИ исчерпан. Попробуйте снова завтра.") ∧
    (ask cfgW limW_hard [] envW_fail none "mood_reply" "hi" "ru" false).usage = [] ∧
    (ask cfgW limW_hard [] envW_fail none "mood_reply" "hi" "ru" false).events = [] :=
  C2_hard_budget_denial cfgW limW_hard [] envW_fail none "mood_reply" "hi" "ru" false
    (Or.inl rfl) (by decide)

/-- C9: every `ask` call that returns an answer writes exactly one usage
record, whichever path served it (cache hit, template, local, paid success
or paid-failure fallback), so request counts reconcile against the usage
log. -/
theorem C9_one_usage_record (cfg : RouterConfig) (lim : LimiterState)
    (store : List PromptCacheEntry) (env : AskEnv) (uid : Option Int)
    (kind text locale : String) (uc : Bool) (r : AIResponse)
    (h : (ask cfg lim store env uid kind text locale uc).result = .ok r) :
    (ask cfg lim store env uid kind text locale uc).usage.length = 1 := by
  rcases hp : (if uc then cache_get store env.cacheNow kind text (locale_fallback locale)
      else (none, store)).1 with _ | c
  · by_cases hh : (ensure_current_day lim env.nowDay).mode = "hard"
    · rw [ask_probe_miss_hard cfg lim store env uid kind text locale uc hp hh] at h
      simp at h
    · rcases select_route_mem cfg.mode cfg.openai_api_key kind
        (ensure_current_day lim env.nowDay).mode with hr | hr | hr | hr
      · rw [ask_template_route cfg lim store env uid kind text locale uc hp hh hr]
        rfl
      · rw [ask_local_route cfg lim store env uid kind text locale uc hp hh hr]
        rfl
      · rcases ho : env.oracle with u | v
        · rw [ask_paid_error cfg lim store env uid kind text locale uc "mini" u hp hh hr
            (Or.inl rfl) ho]
          rfl
        · obtain ⟨rt, tin, tout, cost⟩ := v
          rw [ask_paid_ok cfg lim store env uid kind text locale uc "mini" rt tin tout cost
            hp hh hr (Or.inl rfl) ho]
          rfl
      · rcases ho : env.oracle with u | v
        · rw [ask_paid_error cfg lim store env uid kind text locale uc "turbo" u hp hh hr
            (Or.inr rfl) ho]
          rfl
        · obtain ⟨rt, tin, tout, cost⟩ := v
          rw [ask_paid_ok cfg lim store env uid kind text locale uc "turbo" rt tin tout cost
            hp hh hr (Or.inr rfl) ho]
          rfl
  · rw [ask_probe_hit cfg lim store env uid kind text locale uc c hp]
    rfl

/-- Witness for C9: a template-served request writes one record. -/
theorem C9_one_usage_record_witness :
    (ask cfgW limW [] envW_fail (some 2) "quick_tip" "hello" "ru" true).usage.length = 1 :=
  C9_one_usage_record cfgW limW [] envW_fail (some 2) "quick_tip" "hello" "ru" true
    ⟨choose_template "quick_tip" (locale_fallback "ru"), "template", "template", 0, 0, 0, false⟩
    (by rfl)

/-- `PromptCache.get` on a stored, unexpired entry. -/
theorem cache_get_of_entry (store : List PromptCacheEntry) (now : Nat)
    (kind prompt locale : String) (e : PromptCacheEntry)
    (h : (get_cache_entry store now (cache_key kind prompt locale)).1 = some e) :
    cache_get store now kind prompt locale =
      (some ⟨e.response_text, e.model, e.source, e.tokens_in, e.tokens_out, e.usd_cost⟩,
       (get_cache_entry store now (cache_key kind prompt locale)).2) := by
  unfold cache_get
  simp only [h]

/-- A `PromptCache.get` hit implies a stored, unexpired entry. -/
theorem cache_get_some_entry (store : List PromptCacheEntry) (now : Nat)
    (kind prompt locale : String) (c : CachedResponse)
    (h : (cache_get store now kind prompt locale).1 = some c) :
    ∃ e, (get_cache_entry store now (cache_key kind prompt locale)).1 = some e := by
  unfold cache_get at h
  rcases ho : (get_cache_entry store now (cache_key kind prompt locale)).1 with _ | e
  · simp only [ho] at h
    simp at h
  · exact ⟨e, rfl⟩

/-- C3: a cache-enabled `ask` whose fingerprint has an unexpired entry
returns immediately from the cache — `source = "cache"`, `cached = true`,
zero cost, one cache-hit usage record, and no generator or provider
invocation — and this is the only early-return path: an answer with
`source = "cache"` can only arise from a cache-enabled probe that hit. -/
theorem C3_cache_hit_early_return :
    (∀ (cfg : RouterConfig) (lim : LimiterState) (store : List PromptCacheEntry)
        (env : AskEnv) (uid : Option Int) (kind text locale : String)
        (e : PromptCacheEntry),
      (get_cache_entry store env.cacheNow (cache_key kind text (locale_fallback locale))).1
          = some e →
      (ask cfg lim store env uid kind text locale true).result =
        .ok ⟨e.response_text, "cache", e.model, e.tokens_in, e.tokens_out, 0, true⟩ ∧
      (ask cfg lim store env uid kind text locale true).usage =
        [⟨e.model, kind, 0, 0, 0, "cache", uid⟩] ∧
      (ask cfg lim store env uid kind text locale true).events = []) ∧
    (∀ (cfg : RouterConfig) (lim : LimiterState) (store : List PromptCacheEntry)
        (env : AskEnv) (uid : Option Int) (kind text locale : String) (uc : Bool)
        (r : AIResponse),
      (ask cfg lim store env uid kind text locale uc).result = .ok r →
      r.source = "cache" →
      uc = true ∧
      ∃ e, (get_cache_entry store env.cacheNow
        (cache_key kind text (locale_fallback locale))).1 = some e) := by
  constructor
  · intro cfg lim store env uid kind text locale e he
    have hif : (if (true : Bool) then
        cache_get store env.cacheNow kind text (locale_fallback locale)
        else (none, store)).1 =
        some ⟨e.response_text, e.model, e.source, e.tokens_in, e.tokens_out, e.usd_cost⟩ := by
      rw [if_pos rfl,
        cache_get_of_entry store env.cacheNow kind text (locale_fallback locale) e he]
    rw [ask_probe_hit cfg lim store env uid kind text locale true _ hif]
    exact ⟨rfl, rfl, rfl⟩
  · intro cfg lim store env uid kind text locale uc r hres hsrc
    rcases hp : (if uc then cache_get store env.cacheNow kind text (locale_fallback locale)
        else (none, store)).1 with _ | c
    · exfalso
      by_cases hh : (ensure_current_day lim env.nowDay).mode = "hard"
      · rw [ask_probe_miss_hard cfg lim store env uid kind text locale uc hp hh] at hres
        simp at hres
      · rcases select_route_mem cfg.mode cfg.openai_api_key kind
          (ensure_current_day lim env.nowDay).mode with hr | hr | hr | hr
        · rw [ask_template_route cfg lim store env uid kind text locale uc hp hh hr] at hres
          simp at hres
          rw [← hres] at hsrc
          simp at hsrc
        · rw [ask_local_route cfg lim store env uid kind text locale uc hp hh hr] at hres
          simp at hres
          rw [← hres] at hsrc
          simp at hsrc
        · rcases ho : env.oracle with u | v
          · rw [ask_paid_error cfg lim store env uid kind text locale uc "mini" u hp hh hr
              (Or.inl rfl) ho] at hres
            simp at hres
            rw [← hres] at hsrc
            simp at hsrc
          · obtain ⟨rt, tin, tout, cost⟩ := v
            rw [ask_paid_ok cfg lim store env uid kind text locale uc "mini" rt tin tout cost
              hp hh hr (Or.inl rfl) ho] at hres
            simp at hres
            rw [← hres] at hsrc
            simp at hsrc
        · rcases ho : env.oracle with u | v
          · rw [ask_paid_error cfg lim store env uid kind text locale uc "turbo" u hp hh hr
              (Or.inr rfl) ho] at hres
            simp at hres
            rw [← hres] at hsrc
            simp at hsrc
          · obtain ⟨rt, tin, tout, cost⟩ := v
            rw [ask_paid_ok cfg lim store env uid kind text locale uc "turbo" rt tin tout cost
              hp hh hr (Or.inr rfl) ho] at hres
            simp at hres
            rw [← hres] at hsrc
            simp at hsrc
    · have huc : uc = true := by
        cases uc
        · simp at hp
        · rfl
      subst huc
      have hc : (cache_get store env.cacheNow kind text (locale_fallback locale)).1 = some c := by
        simpa using hp
      exact ⟨rfl, cache_get_some_entry store env.cacheNow kind text (locale_fallback locale) c hc⟩

/-- Witness for C3: an unexpired `deep_insight` entry is served from cache
(part 1 of the claim applied at a concrete store). -/
theorem C3_cache_hit_early_return_witness :
    (ask cfgW limW [entryW] envW_fail none "deep_insight" "explain" "en" true).result =
      .ok ⟨entryW.response_text, "cache", entryW.model,
        entryW.tokens_in, entryW.tokens_out, 0, true⟩ ∧
    (ask cfgW limW [entryW] envW_fail none "deep_insight" "explain" "en" true).usage =
      [⟨entryW.model, "deep_insight", 0, 0, 0, "cache", none⟩] ∧
    (ask cfgW limW [entryW] envW_fail none "deep_insight" "explain" "en" true).events = [] :=
  C3_cache_hit_early_return.1 cfgW limW [entryW] envW_fail none "deep_insight" "explain" "en"
    entryW (by decide)

end SoznAi
